import Mathlib

/-!
# numpy-opencv-converter: `src/utils/conversion.cpp`

A shallow embedding of the NumPy <-> OpenCV bridge (`NumpyAllocator`,
`NDArrayConverter::toMat`, `NDArrayConverter::toNDArray`) and the properties
established about it.

Conventions of the embedding
* C `int` / `npy_intp` values are mathematical integers (`Int`); conversions
  between integer types (`(int)`, `(size_t)`) and bitwise operators are
  explicit functions working on two's-complement bit patterns.
* Pointers to foreign objects and to storage records are `Option Nat`
  (`none` is the null pointer, `some i` is position `i` of the heap).
  Data pointers are natural numbers, `0` being the null pointer.
* Every function that touches the foreign runtime or the matrix library
  takes the current `World` and returns the new one; a thrown
  `cv::Exception` and undefined behaviour are explicit results (`Fault`).
* The GIL / thread-state guards (`PyEnsureGIL`, `PyAllowThreads`) have no
  effect on the sequential state and are not represented.
-/

namespace NumpyOpencv

/-! ## C data model of the platform -/

/-- The C data models the bridge can be compiled for: they fix `sizeof(long)`
and `sizeof(size_t)` (and with them the NumPy aliases `NPY_INT64`,
`NPY_UINT64`). -/
inductive DataModel where
  | LP64
  | LLP64
  | ILP32
  deriving DecidableEq, Repr

/-- Value of `sizeof(long)`. -/
def DataModel.sizeofLong : DataModel → Nat
  | .LP64 => 8
  | .LLP64 => 4
  | .ILP32 => 4

/-- Value of `sizeof(size_t)`, which is also `sizeof(npy_intp)`. -/
def DataModel.sizeofSizeT : DataModel → Nat
  | .LP64 => 8
  | .LLP64 => 8
  | .ILP32 => 4

/-! ## Machine integer operations -/

/-- Two's-complement bit pattern of a C `int` (32 bits). -/
def toU32 (x : Int) : Nat := (x % 4294967296).toNat

/-- The C `int` denoted by a 32-bit pattern. -/
def ofU32 (n : Nat) : Int :=
  if n % 4294967296 < 2147483648 then ((n % 4294967296 : Nat) : Int)
  else ((n % 4294967296 : Nat) : Int) - 4294967296

/-- The conversion `(int)x` of an `npy_intp` value. -/
def toInt32 (x : Int) : Int := ofU32 (toU32 x)

/-- The operator `a & b` on C `int`. -/
def intAnd (a b : Int) : Int := ofU32 (toU32 a &&& toU32 b)

/-- The operator `a | b` on C `int`. -/
def intOr (a b : Int) : Int := ofU32 (toU32 a ||| toU32 b)

/-- The operator `a << k` on C `int`. -/
def intShl (a : Int) (k : Nat) : Int := ofU32 (toU32 a <<< k)

/-- The operator `a >> k` on C `int` (arithmetic shift). -/
def intShr (a : Int) (k : Nat) : Int := a / 2 ^ k

/-- The conversion `(size_t)x` of an `npy_intp` value. -/
def toSizeT (dm : DataModel) (x : Int) : Nat := (x % 2 ^ (8 * dm.sizeofSizeT)).toNat

/-! ## Constants of the two runtimes

The headers of NumPy and OpenCV are not part of the repository. The
definitions of this section give the values that `conversion.cpp` is compiled
against: the type numbers of NumPy's `NPY_TYPES` enumeration (the "element
type code" of the spec) and the depths, limits and type macros of OpenCV's
`cvdef.h` (the "fixed maximum rank/channel-count constant" of the spec). -/

/-- Modelled from the spec: the element type codes of the foreign runtime, with
the values of NumPy's `NPY_TYPES` enumeration (`NPY_BOOL` to `NPY_DOUBLE`). -/
def NPY_BOOL : Int := 0
def NPY_BYTE : Int := 1
def NPY_UBYTE : Int := 2
def NPY_SHORT : Int := 3
def NPY_USHORT : Int := 4
def NPY_INT : Int := 5
def NPY_UINT : Int := 6
def NPY_LONG : Int := 7
def NPY_ULONG : Int := 8
def NPY_LONGLONG : Int := 9
def NPY_ULONGLONG : Int := 10
def NPY_FLOAT : Int := 11
def NPY_DOUBLE : Int := 12

/-- Modelled from the spec: the largest rank of an array of the foreign runtime
(`NPY_MAXDIMS`). -/
def NPY_MAXDIMS : Nat := 32

/-- Modelled from the spec: the alias `NPY_INT64` of NumPy's `npy_common.h`: `NPY_LONG` when `long` has 64 bits, else `NPY_LONGLONG`. -/
def NPY_INT64 (dm : DataModel) : Int := if dm.sizeofLong = 8 then NPY_LONG else NPY_LONGLONG

/-- Modelled from the spec: the alias `NPY_UINT64` of NumPy's `npy_common.h`: `NPY_ULONG` when `long` has 64 bits, else `NPY_ULONGLONG`. -/
def NPY_UINT64 (dm : DataModel) : Int := if dm.sizeofLong = 8 then NPY_ULONG else NPY_ULONGLONG

/-- Modelled from the spec: the depths of the matrix library, with the values
of OpenCV's `cvdef.h` (`CV_8U` to `CV_64F`). -/
def CV_8U : Int := 0
def CV_8S : Int := 1
def CV_16U : Int := 2
def CV_16S : Int := 3
def CV_32S : Int := 4
def CV_32F : Int := 5
def CV_64F : Int := 6

/-- Modelled from the spec: the fixed maximum channel count (`CV_CN_MAX`). -/
def CV_CN_MAX : Int := 512
def CV_CN_SHIFT : Nat := 3
def CV_DEPTH_MAX : Int := 8
/-- Modelled from the spec: the fixed maximum rank (`CV_MAX_DIM`). -/
def CV_MAX_DIM : Nat := 32

/-- Modelled from the spec: the depth part of a matrix element type, the macro
`CV_MAT_DEPTH(flags) = flags & (CV_DEPTH_MAX - 1)` of OpenCV's `cvdef.h`. -/
def CV_MAT_DEPTH (flags : Int) : Int := intAnd flags (CV_DEPTH_MAX - 1)

/-- Modelled from the spec: the element type with an embedded channel count, the
macro `CV_MAKETYPE(depth,cn) = CV_MAT_DEPTH(depth) + ((cn-1) << CV_CN_SHIFT)`
of OpenCV's `cvdef.h`. -/
def CV_MAKETYPE (depth cn : Int) : Int := CV_MAT_DEPTH depth + intShl (cn - 1) CV_CN_SHIFT

/-- Modelled from the spec: the macro
`CV_MAT_CN_MASK = (CV_CN_MAX - 1) << CV_CN_SHIFT` of OpenCV's `cvdef.h`. -/
def CV_MAT_CN_MASK : Int := intShl (CV_CN_MAX - 1) CV_CN_SHIFT

/-- Modelled from the spec: the channel count of a matrix element type, the macro
`CV_MAT_CN(flags) = ((flags & CV_MAT_CN_MASK) >> CV_CN_SHIFT) + 1` of OpenCV's
`cvdef.h`. -/
def CV_MAT_CN (flags : Int) : Int := intShr (intAnd flags CV_MAT_CN_MASK) CV_CN_SHIFT + 1

/-- Modelled from the spec: the macro
`CV_MAT_TYPE(flags) = flags & (CV_DEPTH_MAX*CV_CN_MAX - 1)` of OpenCV's
`cvdef.h`. -/
def CV_MAT_TYPE (flags : Int) : Int := intAnd flags (CV_DEPTH_MAX * CV_CN_MAX - 1)

/-- Modelled from the spec: the per-channel element size, the macro
`CV_ELEM_SIZE1(type) =
((((sizeof(size_t)<<28)|0x8442211) >> CV_MAT_DEPTH(type)*4) & 15)` of OpenCV's
`cvdef.h`: byte size of one channel item. -/
def CV_ELEM_SIZE1 (dm : DataModel) (type : Int) : Nat :=
  (((dm.sizeofSizeT <<< 28) ||| 0x8442211) >>> ((CV_MAT_DEPTH type).toNat * 4)) &&& 15

/-- Modelled from the spec: one element's byte size, the macro
`CV_ELEM_SIZE(type) = (CV_MAT_CN(type) <<
((((sizeof(size_t)/4+1)*16384|0x3a50) >> CV_MAT_DEPTH(type)*2) & 3))` of
OpenCV's `cvdef.h`. -/
def CV_ELEM_SIZE (dm : DataModel) (type : Int) : Nat :=
  (CV_MAT_CN type).toNat <<<
    (((((dm.sizeofSizeT / 4 + 1) * 16384) ||| 0x3a50) >>> ((CV_MAT_DEPTH type).toNat * 2)) &&& 3)

/-! ## Element type tables -/

/-- The conditional chain of `toMat` (lines 194-198): NumPy type number to
matrix depth, `-1` when there is no entry. -/
def toMatDepth (typenum : Int) : Int :=
  if typenum = NPY_UBYTE then CV_8U else
  if typenum = NPY_BYTE then CV_8S else
  if typenum = NPY_USHORT then CV_16U else
  if typenum = NPY_SHORT then CV_16S else
  if typenum = NPY_INT ∨ typenum = NPY_LONG then CV_32S else
  if typenum = NPY_FLOAT then CV_32F else
  if typenum = NPY_DOUBLE then CV_64F else -1

/-- Values of the locals `type`, `new_typenum`, `needcopy`, `needcast` of
`toMat` after line 210; `failed` records that `failmsg` was called. -/
structure TypeChoice where
  type : Int
  new_typenum : Int
  needcopy : Bool
  needcast : Bool
  failed : Bool
  deriving DecidableEq, Repr

/-- Lines 192-210 of `toMat`. The third disjunct of line 202 compares `type`
(not `typenum`) with `NPY_LONG`, as the source does. -/
def toMatType (dm : DataModel) (typenum : Int) : TypeChoice :=
  let type := toMatDepth typenum
  if type < 0 then
    if typenum = NPY_INT64 dm ∨ typenum = NPY_UINT64 dm ∨ type = NPY_LONG then
      { type := CV_32S, new_typenum := NPY_INT, needcopy := true, needcast := true,
        failed := false }
    else
      { type := type, new_typenum := typenum, needcopy := false, needcast := false,
        failed := true }
  else
    { type := type, new_typenum := typenum, needcopy := false, needcast := false,
      failed := false }

/-- The conditional chain of the materializing `NumpyAllocator::allocate`
(lines 97-101): matrix depth to NumPy type number. -/
def allocTypenum (dm : DataModel) (depth : Int) : Int :=
  let f : Int := ((dm.sizeofSizeT / 8 : Nat) : Int)
  if depth = CV_8U then NPY_UBYTE else
  if depth = CV_8S then NPY_BYTE else
  if depth = CV_16U then NPY_USHORT else
  if depth = CV_16S then NPY_SHORT else
  if depth = CV_32S then NPY_INT else
  if depth = CV_32F then NPY_FLOAT else
  if depth = CV_64F then NPY_DOUBLE else
  f * NPY_ULONGLONG + (Int.xor f 1) * NPY_UINT

/-- Kinds of numeric element types. -/
inductive ElemKind where
  | bool
  | signed
  | unsigned
  | float
  | complex
  | object
  deriving DecidableEq, Repr

/-- Modelled from the spec: byte size of one item of an element type code of
the foreign runtime (`descr->elsize`); `none` for flexible and unknown type
numbers. -/
def npyElsize (dm : DataModel) (typenum : Int) : Option Nat :=
  if typenum = 0 then some 1 else
  if typenum = 1 ∨ typenum = 2 then some 1 else
  if typenum = 3 ∨ typenum = 4 then some 2 else
  if typenum = 5 ∨ typenum = 6 then some 4 else
  if typenum = 7 ∨ typenum = 8 then some dm.sizeofLong else
  if typenum = 9 ∨ typenum = 10 then some 8 else
  if typenum = 11 then some 4 else
  if typenum = 12 then some 8 else
  if typenum = 13 then some (match dm with | .LP64 => 16 | .LLP64 => 8 | .ILP32 => 12) else
  if typenum = 14 then some 8 else
  if typenum = 15 then some 16 else
  if typenum = 16 then some (match dm with | .LP64 => 32 | .LLP64 => 16 | .ILP32 => 24) else
  if typenum = 17 then some dm.sizeofSizeT else
  if typenum = 21 ∨ typenum = 22 then some 8 else
  if typenum = 23 then some 2 else none

/-- Modelled from the spec: kind (unsigned or signed integer, float, ...) of an
element type code of the foreign runtime. -/
def npyKind (typenum : Int) : Option ElemKind :=
  if typenum = 0 then some .bool else
  if typenum = 1 ∨ typenum = 3 ∨ typenum = 5 ∨ typenum = 7 ∨ typenum = 9 then some .signed else
  if typenum = 2 ∨ typenum = 4 ∨ typenum = 6 ∨ typenum = 8 ∨ typenum = 10 then some .unsigned else
  if typenum = 11 ∨ typenum = 12 ∨ typenum = 13 ∨ typenum = 23 then some .float else
  if typenum = 14 ∨ typenum = 15 ∨ typenum = 16 then some .complex else
  if typenum = 17 then some .object else
  if typenum = 21 ∨ typenum = 22 then some .signed else none

/-- Modelled from the spec: kind of a depth of the matrix library. -/
def cvKind (depth : Int) : Option ElemKind :=
  if depth = CV_8U ∨ depth = CV_16U then some .unsigned else
  if depth = CV_8S ∨ depth = CV_16S ∨ depth = CV_32S then some .signed else
  if depth = CV_32F ∨ depth = CV_64F then some .float else none

/-! ## The foreign runtime: objects, reference counts, arrays -/

/-- Modelled from the spec: the Foreign Array Object. Fields of a
`PyArrayObject` that the bridge reads: `PyArray_TYPE`,
`PyArray_DIMS`, `PyArray_STRIDES`, `PyArray_DATA`; `PyArray_NDIM` is the
length of `dims`. -/
structure PyArrayObject where
  typenum : Int
  dims : List Int
  strides : List Int
  data : Nat
  deriving DecidableEq, Repr

/-- What the type checks `PyInt_Check`, `PyFloat_Check`, `PyTuple_Check`,
`PyArray_Check` see of an object. -/
inductive PyKind where
  | int
  | float
  | tuple (items : List Nat)
  | ndarray (a : PyArrayObject)
  | other
  deriving DecidableEq, Repr

/-- A foreign object with its reference count. -/
structure PyObject where
  ob_refcnt : Int
  kind : PyKind
  deriving DecidableEq, Repr

/-- The allocator a matrix or a storage record points to. -/
inductive AllocatorPtr where
  | null
  | numpy
  | std
  deriving DecidableEq, Repr

/-- Modelled from the spec: the Refcounted Storage Record, `cv::UMatData` of the
matrix library (fields used by the bridge). -/
structure UMatData where
  currAllocator : AllocatorPtr
  refcount : Int
  data : Nat
  origdata : Nat
  size : Nat
  userdata : Option Nat
  deriving DecidableEq, Repr

/-- Modelled from the spec: the Matrix Descriptor with its storage record and
allocator, `cv::Mat` of the matrix library (fields used by the bridge). -/
structure Mat where
  flags : Int
  dims : Nat
  size : List Int
  step : List Nat
  data : Nat
  u : Option Nat
  allocator : AllocatorPtr
  deriving DecidableEq, Repr

/-- Modelled from the spec: the default-constructed `cv::Mat`. -/
def Mat.empty : Mat :=
  { flags := 0, dims := 0, size := [], step := [], data := 0, u := none, allocator := .null }

/-- State of the process: the foreign heap (an object is alive while its
reference count is positive), the storage records (`none` once deleted), the
Python error indicator, the address of `Py_None`, the number of objects the
foreign heap can hold, the next unused data address and the number of
buffer copies made so far. -/
structure World where
  heap : List PyObject
  records : List (Option UMatData)
  pyErr : Bool
  pyNone : Nat
  heapLimit : Nat
  nextData : Nat
  copies : Nat
  deriving DecidableEq, Repr

/-- How a call can end other than by returning. -/
inductive Fault where
  | cvError (w : World)
  | undefined
  deriving DecidableEq, Repr

/-- Reference count stored in object `i` (0 for an address outside the heap). -/
def World.refcnt (w : World) (i : Nat) : Int :=
  match w.heap[i]? with
  | some ob => ob.ob_refcnt
  | none => 0

/-- Dereference of an object pointer: defined for a non-null pointer to a
live object. -/
def World.obj (w : World) (o : Option Nat) : Option PyObject :=
  match o with
  | none => none
  | some i =>
    match w.heap[i]? with
    | some ob => if 0 < ob.ob_refcnt then some ob else none
    | none => none

/-- Dereference of an object pointer as `PyArrayObject*`. -/
def World.arr (w : World) (o : Option Nat) : Option PyArrayObject :=
  match w.obj o with
  | some ob =>
    match ob.kind with
    | .ndarray a => some a
    | _ => none
  | none => none

/-- Dereference of a storage record pointer. -/
def World.record (w : World) (u : Option Nat) : Option UMatData :=
  match u with
  | none => none
  | some r =>
    match w.records[r]? with
    | some x => x
    | none => none

/-- Change of the reference count field of object `i`. -/
def World.setRefcnt (w : World) (i : Nat) (n : Int) : World :=
  match w.heap[i]? with
  | some ob => { w with heap := w.heap.set i { ob with ob_refcnt := n } }
  | none => w

/-- Modelled from the spec: `incref(object_ref)` of the foreign runtime, the
macro `Py_INCREF(o)`; the pointer must point to a live object. -/
def Py_INCREF (o : Option Nat) (w : World) : Except Fault World :=
  match o, w.obj o with
  | some i, some ob => .ok (w.setRefcnt i (ob.ob_refcnt + 1))
  | _, _ => .error .undefined

/-- Modelled from the spec: `decref(object_ref)` of the foreign runtime, the
macro `Py_XDECREF(o)`: nothing for a null pointer; the object is deallocated
by the foreign runtime when the count reaches zero. -/
def Py_XDECREF (o : Option Nat) (w : World) : Except Fault World :=
  match o with
  | none => .ok w
  | some i =>
    match w.obj o with
    | some ob => .ok (w.setRefcnt i (ob.ob_refcnt - 1))
    | none => .error .undefined

/-- The helper `failmsg` (lines 15-26): sets the Python error and returns 0;
it does not transfer control. -/
def failmsg (w : World) : World := { w with pyErr := true }

/-- Strides of a C-contiguous array, outermost first, with the byte count of
the whole block. -/
def cStridesFrom (elsize : Int) : List Int → List Int × Int
  | [] => ([], elsize)
  | d :: ds =>
    let r := cStridesFrom elsize ds
    (r.2 :: r.1, if d = 0 then r.2 else r.2 * d)

/-- Strides of a C-contiguous array of the given extents and item size. -/
def cStrides (elsize : Nat) (dims : List Int) : List Int := (cStridesFrom elsize dims).1

/-- Modelled from the spec: `allocate_contiguous(shape, type) -> object_ref`
of the foreign runtime. A new C-contiguous array object with reference count
1 and a fresh non-null buffer, or the null pointer (with the error indicator
set) when the heap is full, the rank exceeds `NPY_MAXDIMS`, an extent is
negative or the type number has no item size. -/
def newArray (dm : DataModel) (dims : List Int) (typenum : Int) (w : World) :
    Option Nat × World :=
  match npyElsize dm typenum with
  | none => (none, failmsg w)
  | some es =>
    if w.heapLimit ≤ w.heap.length ∨ NPY_MAXDIMS < dims.length ∨ dims.any (fun d => d < 0) then
      (none, failmsg w)
    else
      let a : PyArrayObject :=
        { typenum := typenum, dims := dims, strides := cStrides es dims, data := w.nextData + 1 }
      let ob : PyObject := { ob_refcnt := 1, kind := PyKind.ndarray a }
      (some w.heap.length, { w with heap := w.heap ++ [ob], nextData := w.nextData + 1 })

/-- Modelled from the spec: the NumPy entry point
`PyArray_SimpleNew(nd, dims, typenum)`. -/
def PyArray_SimpleNew (dm : DataModel) (nd : Nat) (dims : List Int) (typenum : Int)
    (w : World) : Option Nat × World :=
  newArray dm (dims.take nd) typenum w

/-- Modelled from the spec: `cast(object_ref, new_type) -> object_ref` of the
foreign runtime (`PyArray_Cast`): a new C-contiguous array of the requested
type holding converted copies of the items. -/
def PyArray_Cast (dm : DataModel) (a : PyArrayObject) (typenum : Int) (w : World) :
    Option Nat × World :=
  match newArray dm a.dims typenum w with
  | (some i, w1) => (some i, { w1 with copies := w1.copies + 1 })
  | r => r

/-- Modelled from the spec: `make_contiguous(object_ref) -> object_ref` of the
foreign runtime (`PyArray_GETCONTIGUOUS`): a new reference to the array itself
when it is C-contiguous, otherwise a new C-contiguous copy. -/
def PyArray_GETCONTIGUOUS (dm : DataModel) (o : Nat) (a : PyArrayObject) (w : World) :
    Option Nat × World :=
  match npyElsize dm a.typenum with
  | none => (none, failmsg w)
  | some es =>
    if a.strides = cStrides es a.dims then
      (some o, w.setRefcnt o (w.refcnt o + 1))
    else
      match newArray dm a.dims a.typenum w with
      | (some i, w1) => (some i, { w1 with copies := w1.copies + 1 })
      | r => r

/-! ## The matrix library: storage records and matrix headers -/

/-- The expression `new UMatData(...)`: a new storage record. -/
def newRecord (r : UMatData) (w : World) : Nat × World :=
  (w.records.length, { w with records := w.records ++ [some r] })

/-- The statement `delete u`. -/
def deleteRecord (r : Nat) (w : World) : World :=
  { w with records := w.records.set r none }

/-- Assignment to the fields of a storage record. -/
def setRecord (r : Nat) (x : UMatData) (w : World) : World :=
  { w with records := w.records.set r (some x) }

/-- The helper overload `NumpyAllocator::allocate(PyObject* o, int dims,
const int* sizes, int type, size_t* step)` (lines 72-83): a storage record
over the buffer of `o`. It returns the record and the contents of `step`. -/
def NumpyAllocator.allocate_object (dm : DataModel) (o : Option Nat) (dims : Nat)
    (sizes : List Int) (type : Int) (step : List Nat) (w : World) :
    Except Fault (Nat × List Nat × World) :=
  match w.arr o with
  | none => .error .undefined
  | some a =>
    -- reads `_strides[0 .. dims-2]`, `sizes[0]`; writes `step[0 .. dims-1]`
    if dims = 0 ∨ a.strides.length + 1 < dims ∨ sizes.length = 0 ∨ step.length < dims then
      .error .undefined
    else
      let step1 := (List.range (dims - 1)).map (fun i => toSizeT dm (a.strides.getD i 0))
        ++ [CV_ELEM_SIZE dm type] ++ step.drop dims
      let u : UMatData :=
        { currAllocator := .numpy, refcount := 0, data := a.data, origdata := a.data,
          size := (toSizeT dm (sizes.getD 0 0) * step1.getD 0 0) % 2 ^ (8 * dm.sizeofSizeT),
          userdata := o }
      let r := newRecord u w
      .ok (r.1, step1, r.2)

/-- The rank, shape and type number that the materializing
`NumpyAllocator::allocate` hands to `PyArray_SimpleNew` (lines 95-108). -/
def materializeRequest (dm : DataModel) (dims0 : Nat) (sizes : List Int) (type : Int) :
    Nat × List Int × Int :=
  let depth := CV_MAT_DEPTH type
  let cn := CV_MAT_CN type
  let typenum := allocTypenum dm depth
  let _sizes := sizes.take dims0
  if cn > 1 then (dims0 + 1, _sizes ++ [cn], typenum) else (dims0, _sizes, typenum)

/-- The override `NumpyAllocator::allocate(int dims0, const int* sizes, int type,
void* data, size_t* step, int flags, UMatUsageFlags usageFlags)` (lines 85-112).
`CV_Error` throws, so the statement after it on line 91 is never reached. -/
def NumpyAllocator.allocate (dm : DataModel) (dims0 : Nat) (sizes : List Int) (type : Int)
    (data : Nat) (step : List Nat) (w : World) : Except Fault (Nat × List Nat × World) :=
  if data ≠ 0 then .error (.cvError w)
  else if sizes.length < dims0 then .error .undefined
  else
    let req := materializeRequest dm dims0 sizes type
    match PyArray_SimpleNew dm req.1 req.2.1 req.2.2 w with
    | (none, w1) => .error (.cvError w1)
    | (some o, w1) => NumpyAllocator.allocate_object dm (some o) dims0 sizes type step w1

/-- The method `NumpyAllocator::deallocate(UMatData* u)` (lines 119-128). -/
def NumpyAllocator.deallocate (u : Option Nat) (w : World) : Except Fault World :=
  match u with
  | none => .ok w
  | some r =>
    match w.record u with
    | none => .error .undefined
    | some x =>
      match Py_XDECREF x.userdata w with
      | .ok w1 => .ok (deleteRecord r w1)
      | .error e => .error e

/-- Modelled from the spec: the standard allocator of the matrix library
(`Mat::getStdAllocator()`): a record over a fresh buffer, bound to no foreign
object. -/
def stdAllocate (w : World) : Nat × World :=
  let u : UMatData :=
    { currAllocator := .std, refcount := 0, data := w.nextData + 1, origdata := w.nextData + 1,
      size := 0, userdata := none }
  newRecord u { w with nextData := w.nextData + 1 }

/-- Modelled from the spec: the header fields that the matrix library sets for
a rank, shape and steps; a one-dimensional shape becomes a column
(`dims = 2`, `cols = 1`). -/
def Mat.header (dm : DataModel) (ndims : Nat) (sizes : List Int) (type : Int)
    (steps : List Nat) : Mat :=
  let esz := CV_ELEM_SIZE dm (CV_MAT_TYPE type)
  if ndims = 1 then
    { flags := CV_MAT_TYPE type, dims := 2, size := sizes.take 1 ++ [1], step := [esz, esz],
      data := 0, u := none, allocator := .null }
  else
    { flags := CV_MAT_TYPE type, dims := ndims, size := sizes.take ndims,
      step := steps.take (ndims - 1) ++ [esz], data := 0, u := none, allocator := .null }

/-- Modelled from the spec: construct-from-descriptor of the matrix library,
`Mat(int ndims, const int* sizes, int type, void* data, const size_t* steps)`.
The header points to `data`, owns no storage record, and takes every step but
the innermost from `steps`; the library asserts `ndims <= CV_MAX_DIM` and
non-negative extents. -/
def Mat.ofData (dm : DataModel) (ndims : Nat) (sizes : List Int) (type : Int) (data : Nat)
    (steps : List Nat) (w : World) : Except Fault Mat :=
  if sizes.length < ndims ∨ steps.length < ndims then .error .undefined
  else if CV_MAX_DIM < ndims ∨ (sizes.take ndims).any (fun s => s < 0) then .error (.cvError w)
  else .ok { Mat.header dm ndims sizes type steps with data := data }

/-- Modelled from the spec: the method `Mat::total()` of the matrix library,
the number of elements. -/
def Mat.total (m : Mat) : Int := m.size.prod

/-- Modelled from the spec: the method `Mat::empty()` of the matrix library. -/
def Mat.isEmpty (m : Mat) : Bool := m.data = 0 ∨ m.total = 0 ∨ m.dims = 0

/-- Modelled from the spec: addref on the storage abstraction of the matrix
library (`Mat::addref()`). -/
def Mat.addref (m : Mat) (w : World) : World :=
  match m.u, w.record m.u with
  | some r, some x => setRecord r { x with refcount := x.refcount + 1 } w
  | _, _ => w

/-- Modelled from the spec: release on the storage abstraction of the matrix
library (`Mat::release()`, run by the destructor): the record's count drops by
one and the record that reaches zero is handed to the `deallocate` of the
allocator that created it. -/
def Mat.release (m : Mat) (w : World) : Except Fault World :=
  match m.u with
  | none => .ok w
  | some r =>
    match w.record m.u with
    | none => .error .undefined
    | some x =>
      let w1 := setRecord r { x with refcount := x.refcount - 1 } w
      if x.refcount = 1 then
        match x.currAllocator with
        | .numpy => NumpyAllocator.deallocate (some r) w1
        | _ => .ok (deleteRecord r w1)
      else .ok w1

/-- Modelled from the spec: `Mat::create(ndims, sizes, type)` on a header `m`:
the current storage is released and new storage for the shape is obtained from
the allocator of `m` (the standard allocator when it has none); an exception
of the allocator propagates. -/
def Mat.create (dm : DataModel) (m : Mat) (d : Nat) (sizes : List Int) (type : Int)
    (w : World) : Except Fault (Mat × World) :=
  if sizes.length < d then .error .undefined
  else if CV_MAX_DIM < d ∨ (sizes.take d).any (fun s => s < 0) then .error (.cvError w)
  else
    match Mat.release m w with
    | .error e => .error e
    | .ok w0 =>
      let esz := CV_ELEM_SIZE dm (CV_MAT_TYPE type)
      let h0 := Mat.header dm d sizes type []
      let h : Mat :=
        { h0 with step := (cStrides esz h0.size).map Int.toNat, allocator := m.allocator }
      if d = 0 ∨ h.total = 0 then .ok (h, w0)
      else
        match m.allocator with
        | .numpy =>
          match NumpyAllocator.allocate dm h.dims h.size (CV_MAT_TYPE type) 0 h.step w0 with
          | .error e => .error e
          | .ok (r, step1, w1) =>
            let h1 : Mat := { h with step := step1, u := some r,
                                     data := ((w1.record (some r)).map (fun x => x.data)).getD 0 }
            .ok (h1, Mat.addref h1 w1)
        | _ =>
          let r := stdAllocate w0
          let h1 : Mat := { h with u := some r.1,
                                   data := ((r.2.record (some r.1)).map (fun x => x.data)).getD 0 }
          .ok (h1, Mat.addref h1 r.2)

/-- Modelled from the spec: `Mat::copyTo(dst)`: an empty source releases the
destination; otherwise the destination is created with the shape and type
of the source and the buffer is copied once. -/
def Mat.copyTo (dm : DataModel) (m dst : Mat) (w : World) : Except Fault (Mat × World) :=
  if m.isEmpty then
    match Mat.release dst w with
    | .error e => .error e
    | .ok w1 => .ok ({ Mat.empty with allocator := dst.allocator }, w1)
  else
    match Mat.create dm dst m.dims m.size m.flags w with
    | .error e => .error e
    | .ok (dst1, w1) => .ok (dst1, { w1 with copies := w1.copies + 1 })

/-! ## `NDArrayConverter::toMat` -/

/-- The loop of lines 225-234, `for (i = ndims-1; i >= 0 && !needcopy; i--)`;
the first argument is `i + 1`. -/
def scanStrides (dm : DataModel) (ndims : Nat) (strides : List Int) (elemsize : Nat) :
    Nat → Bool → Bool
  | 0, needcopy => needcopy
  | i + 1, needcopy =>
    if needcopy then needcopy
    else if (i + 1 = ndims ∧ toSizeT dm (strides.getD i 0) ≠ elemsize) ∨
        (i + 1 < ndims ∧ strides.getD i 0 < strides.getD (i + 1) 0) then
      scanStrides dm ndims strides elemsize i true
    else scanStrides dm ndims strides elemsize i needcopy

/-- The same loop without the exit condition `!needcopy`: every axis is visited. -/
def scanAllStrides (dm : DataModel) (ndims : Nat) (strides : List Int) (elemsize : Nat) :
    Nat → Bool → Bool
  | 0, needcopy => needcopy
  | i + 1, needcopy =>
    if (i + 1 = ndims ∧ toSizeT dm (strides.getD i 0) ≠ elemsize) ∨
        (i + 1 < ndims ∧ strides.getD i 0 < strides.getD (i + 1) 0) then
      scanAllStrides dm ndims strides elemsize i true
    else scanAllStrides dm ndims strides elemsize i needcopy

/-- Line 223: `ismultichannel = ndims == 3 && _sizes[2] <= CV_CN_MAX`. -/
def ismultichannel (a : PyArrayObject) : Bool :=
  a.dims.length = 3 ∧ a.dims.getD 2 0 ≤ CV_CN_MAX

/-- Value of `needcopy` at line 239, from its value after the type mapping
(lines 223-237). -/
def needcopyFlag (dm : DataModel) (a : PyArrayObject) (elemsize : Nat) (needcopy : Bool) :
    Bool :=
  let needcopy1 := scanStrides dm a.dims.length a.strides elemsize a.dims.length needcopy
  if ismultichannel a ∧ a.strides.getD 1 0 ≠ (elemsize : Int) * a.dims.getD 2 0 then true
  else needcopy1

/-- Arguments of the matrix constructor on line 284. -/
structure MatArgs where
  ndims : Nat
  size : List Int
  type : Int
  data : Nat
  step : List Nat
  deriving DecidableEq, Repr

/-- Lines 239-257 of `toMat`: the cast or contiguous copy. It returns the new
value of `o` and the array it points to. A null result of the foreign runtime
is dereferenced by `PyArray_STRIDES` on line 256. -/
def toMatCopy (dm : DataModel) (o : Nat) (a : PyArrayObject) (tc : TypeChoice)
    (needcopy : Bool) (w : World) : Except Fault (Nat × PyArrayObject × World) :=
  if needcopy then
    let r := if tc.needcast then PyArray_Cast dm a tc.new_typenum w
             else PyArray_GETCONTIGUOUS dm o a w
    match r.1, r.2.arr r.1 with
    | some o1, some a1 => .ok (o1, a1, r.2)
    | _, _ => .error .undefined
  else .ok (o, a, w)

/-- Lines 259-276 of `toMat`: the arrays `size` and `step`, the rank and the
type handed to the matrix constructor; `a` is the array read through `_sizes`
and `a1` the one read through `_strides` and `PyArray_DATA`. -/
def toMatDescriptor (dm : DataModel) (a a1 : PyArrayObject) (type : Int) : MatArgs :=
  let ndims := a.dims.length
  let elemsize := CV_ELEM_SIZE1 dm type
  let size := a.dims.map toInt32
  let step := (a1.strides.take ndims).map (toSizeT dm)
  -- handle degenerate case
  let size1 := if ndims = 0 then [1] else size
  let step1 := if ndims = 0 then [elemsize] else step
  let ndims1 := if ndims = 0 then 1 else ndims
  if ismultichannel a then
    { ndims := ndims1 - 1, size := size1, type := intOr type (CV_MAKETYPE 0 (size1.getD 2 0)),
      data := a1.data, step := step1 }
  else
    { ndims := ndims1, size := size1, type := type, data := a1.data, step := step1 }

/-- Lines 191-283 of `toMat` for an array object: the object finally bound
and the arguments of the matrix constructor. The two `failmsg` calls (lines
209 and 216) set the error and execution continues, as in the source. -/
def toMatArgs (dm : DataModel) (o : Nat) (a : PyArrayObject) (w : World) :
    Except Fault (Nat × MatArgs × World) :=
  if a.strides.length ≠ a.dims.length then .error .undefined
  else
    let tc := toMatType dm a.typenum
    let w1 := if tc.failed then failmsg w else w
    let ndims := a.dims.length
    let w2 := if CV_MAX_DIM ≤ ndims then failmsg w1 else w1
    let elemsize := CV_ELEM_SIZE1 dm tc.type
    let needcopy := needcopyFlag dm a elemsize tc.needcopy
    match toMatCopy dm o a tc needcopy w2 with
    | .error e => .error e
    | .ok (o1, a1, w3) =>
      -- `int size[CV_MAX_DIM+1]; size_t step[CV_MAX_DIM+1]`
      if CV_MAX_DIM + 1 < ndims ∨ a1.strides.length < ndims then .error .undefined
      else .ok (o1, toMatDescriptor dm a a1 tc.type, w3)

/-- Lines 279-302 of `toMat`: construction of the matrix and binding to the
foreign object. `allowND` is true, so the test of line 279 fails, and
`transposed` is never set, so lines 295-301 do nothing. -/
def toMatBind (dm : DataModel) (o : Nat) (d : MatArgs) (w : World) :
    Except Fault (Mat × World) :=
  match Mat.ofData dm d.ndims d.size d.type d.data d.step w with
  | .error e => .error e
  | .ok m =>
    if m.data ≠ 0 then
      match NumpyAllocator.allocate_object dm (some o) d.ndims d.size d.type d.step w with
      | .error e => .error e
      | .ok (u, _, w1) =>
        let m1 : Mat := { m with u := some u }
        let w2 := Mat.addref m1 w1
        match Py_INCREF (some o) w2 with
        | .error e => .error e
        | .ok w3 => .ok ({ m1 with allocator := .numpy }, w3)
    else .ok ({ m with allocator := .numpy }, w)

/-- Lines 155-166 of `toMat`: `m = Mat(4, 1, CV_64F, v).clone()` for a number. -/
def toMatScalar (dm : DataModel) (w : World) : Except Fault (Mat × World) :=
  match Mat.create dm Mat.empty 2 [4, 1] CV_64F w with
  | .error e => .error e
  | .ok (m, w1) => .ok (m, { w1 with copies := w1.copies + 1 })

/-- Lines 167-185 of `toMat`: a tuple of numbers gives an `sz x 1` matrix of
doubles. For another item `failmsg` is called with a `%s` conversion that has
no argument, which is undefined. -/
def toMatTuple (dm : DataModel) (items : List Nat) (w : World) : Except Fault (Mat × World) :=
  match Mat.create dm Mat.empty 2 [(items.length : Int), 1] CV_64F w with
  | .error e => .error e
  | .ok (m, w1) =>
    if items.all (fun i =>
        match w.obj (some i) with
        | some ob => ob.kind = PyKind.int ∨ ob.kind = PyKind.float
        | none => false) then .ok (m, w1)
    else .error .undefined

/-- The function `NDArrayConverter::toMat(PyObject *o)` (lines 144-303). The
assignment of line 152 is overwritten on every path that returns. After the
`failmsg` of line 188 the object is read as a `PyArrayObject`, which is
undefined for an object that is not an array. -/
def NDArrayConverter.toMat (dm : DataModel) (o : Option Nat) (w : World) :
    Except Fault (Mat × World) :=
  -- lines 146-153: `bool allowND = true; cv::Mat m;` and, for a null pointer or
  -- `Py_None`, `m.allocator = &g_numpyAllocator`; every path below assigns `m` anew
  -- line 155: `PyInt_Check(o)` dereferences `o`
  match o, w.obj o with
  | some i, some ob =>
    match ob.kind with
    -- lines 155-160
    | .int => toMatScalar dm w
    -- lines 161-166
    | .float => toMatScalar dm w
    -- lines 167-185
    | .tuple items => toMatTuple dm items w
    -- lines 186-189: `PyArray_Check(o)` holds, no `failmsg`
    | .ndarray a =>
      match toMatArgs dm i a w with
      | .error e => .error e
      | .ok (o1, d, w1) => toMatBind dm o1 d w1
    -- lines 186-193: `failmsg`, then `PyArray_TYPE` on an object that is no array
    | .other => .error .undefined
  | _, _ => .error .undefined

/-! ## `NDArrayConverter::toNDArray` -/

/-- The function `NDArrayConverter::toNDArray(const cv::Mat& m)` (lines
305-322). The local `temp` is destroyed when the function returns. -/
def NDArrayConverter.toNDArray (dm : DataModel) (m : Mat) (w : World) :
    Except Fault (Option Nat × World) :=
  if m.data = 0 then
    -- Py_RETURN_NONE
    match Py_INCREF (some w.pyNone) w with
    | .error e => .error e
    | .ok w1 => .ok (some w.pyNone, w1)
  else if m.u = none ∨ m.allocator ≠ .numpy then
    let temp : Mat := { Mat.empty with allocator := .numpy }
    match Mat.copyTo dm m temp w with
    | .error e => .error e
    | .ok (temp1, w1) =>
      match w1.record temp1.u with
      | none => .error .undefined
      | some x =>
        match Py_INCREF x.userdata w1 with
        | .error e => .error e
        | .ok w2 =>
          match Mat.release temp1 w2 with
          | .error e => .error e
          | .ok w3 => .ok (x.userdata, w3)
  else
    match w.record m.u with
    | none => .error .undefined
    | some x =>
      match Py_INCREF x.userdata w with
      | .error e => .error e
      | .ok w1 => .ok (x.userdata, w1)

/-! ## Preconditions and test drivers used in the statements -/

/-- Violation of the layout contract found by the loop body at axis `i`
(the condition of lines 231-232). -/
def strideViolation (dm : DataModel) (ndims : Nat) (strides : List Int) (elemsize : Nat)
    (i : Nat) : Prop :=
  (i + 1 = ndims ∧ toSizeT dm (strides.getD i 0) ≠ elemsize) ∨
    (i + 1 < ndims ∧ strides.getD i 0 < strides.getD (i + 1) 0)

/-- Object `o` of world `w` is a live array `a` with non-null data that
`toMat` binds in place: its type number is in the table, its rank is below
`CV_MAX_DIM`, its extents fit a C `int`, and the analyzer asks for neither a
copy nor a cast. -/
structure ZeroCopyInput (dm : DataModel) (w : World) (o : Nat) (a : PyArrayObject) : Prop where
  live : w.arr (some o) = some a
  data : a.data ≠ 0
  wf : a.strides.length = a.dims.length
  supported : (toMatType dm a.typenum).failed = false
  rank : a.dims.length < CV_MAX_DIM
  extents : ∀ d ∈ a.dims, 0 ≤ d ∧ d < 2147483648
  nocopy : needcopyFlag dm a (CV_ELEM_SIZE1 dm (toMatType dm a.typenum).type)
    (toMatType dm a.typenum).needcopy = false

/-- The test driver "N binds": `toMat(o)` called `N` times on the same
object, every resulting matrix kept alive. -/
def bindN (dm : DataModel) (o : Nat) : Nat → World → Except Fault (List Mat × World)
  | 0, w => .ok ([], w)
  | n + 1, w =>
    match NDArrayConverter.toMat dm (some o) w with
    | .error e => .error e
    | .ok (m, w1) =>
      match bindN dm o n w1 with
      | .error e => .error e
      | .ok (ms, w2) => .ok (m :: ms, w2)

/-- The test driver "releases": the storage record of each matrix of the list
is released, in order, through `NumpyAllocator::deallocate`. -/
def releaseAll : List Mat → World → Except Fault World
  | [], w => .ok w
  | m :: ms, w =>
    match NumpyAllocator.deallocate m.u w with
    | .error e => .error e
    | .ok w1 => releaseAll ms w1

/-! ## Concrete inputs -/

/-- A world with `Py_None` at address 0 and one array object at address 1. -/
def worldWith (a : PyArrayObject) : World :=
  { heap := [{ ob_refcnt := 10, kind := .other }, { ob_refcnt := 1, kind := .ndarray a }],
    records := [], pyErr := false, pyNone := 0, heapLimit := 100, nextData := 1000, copies := 0 }

/-- A C-contiguous `2 x 3` array of `uint8`. -/
def u8Matrix : PyArrayObject := { typenum := NPY_UBYTE, dims := [2, 3], strides := [3, 1], data := 64 }

/-- The three admissible outcomes of the type mapping for a type number:
(a) mapped without cast to a depth of the same byte width and kind, (b) cast
flagged (with copy) to 32-bit signed, (c) failure reported. The flags make
the three mutually exclusive. -/
def TypeOutcomeOk (dm : DataModel) (typenum : Int) : Prop :=
  let tc := toMatType dm typenum
  (tc.failed = false ∧ tc.needcast = false ∧
      npyElsize dm typenum = some (CV_ELEM_SIZE1 dm tc.type) ∧
      npyKind typenum = cvKind tc.type ∧ (cvKind tc.type).isSome = true) ∨
    (tc.failed = false ∧ tc.needcast = true ∧ tc.needcopy = true ∧ tc.type = CV_32S ∧
      tc.new_typenum = NPY_INT) ∨
    (tc.failed = true ∧ tc.needcast = false)

instance (dm : DataModel) (typenum : Int) : Decidable (TypeOutcomeOk dm typenum) := by
  unfold TypeOutcomeOk
  infer_instance

/-- The seven matrix depths with an entry in the materializing type table. -/
def sevenDepths : List Int := [CV_8U, CV_8S, CV_16U, CV_16S, CV_32S, CV_32F, CV_64F]

/-- A C-contiguous `4 x 3` array of `uint8`: rank 2 with a trailing axis of
extent 3. -/
def u8Rank2 : PyArrayObject := { typenum := NPY_UBYTE, dims := [4, 3], strides := [3, 1], data := 64 }

/-- A `2 x 3 x 3` array of `uint8` whose rows of pixels are padded: the
stride of axis 1 is 6, not `3 * 1`. -/
def u8Padded : PyArrayObject :=
  { typenum := NPY_UBYTE, dims := [2, 3, 3], strides := [18, 6, 1], data := 64 }

/-- A C-contiguous `2 x 3 x 3` array of `uint8`. -/
def u8Image : PyArrayObject :=
  { typenum := NPY_UBYTE, dims := [2, 3, 3], strides := [9, 3, 1], data := 64 }

/-- A C-contiguous vector of three `int64` items (type number `NPY_LONG` where
`long` has 64 bits). -/
def i64Vector : PyArrayObject := { typenum := NPY_LONG, dims := [3], strides := [8], data := 64 }

/-- An array of `uint8` of rank 32 with all extents 1. -/
def u8Rank32 : PyArrayObject :=
  { typenum := NPY_UBYTE, dims := List.replicate 32 1, strides := List.replicate 32 1, data := 64 }

/-- A C-contiguous vector of three `long long` items; where `long` has 64 bits
`NPY_LONGLONG` is neither in the type table nor one of `NPY_INT64`,
`NPY_UINT64`. -/
def longlongVector : PyArrayObject :=
  { typenum := NPY_LONGLONG, dims := [3], strides := [8], data := 64 }

/-- The transpose view of a `3 x 2` array of `uint8`. -/
def u8Transposed : PyArrayObject :=
  { typenum := NPY_UBYTE, dims := [2, 3], strides := [1, 2], data := 64 }

/-- The expression `toNDArray(toMat(o))`: the matrix returned by `toMat` is a
temporary, destroyed (`Mat::release`) when the expression has been evaluated,
also when `toNDArray` throws. -/
def roundTrip (dm : DataModel) (o : Option Nat) (w : World) : Except Fault (Option Nat × World) :=
  match NDArrayConverter.toMat dm o w with
  | .error e => .error e
  | .ok (m, w1) =>
    match NDArrayConverter.toNDArray dm m w1 with
    | .ok (r, w2) =>
      match Mat.release m w2 with
      | .error e => .error e
      | .ok w3 => .ok (r, w3)
    | .error (.cvError w2) =>
      match Mat.release m w2 with
      | .error e => .error e
      | .ok w3 => .error (.cvError w3)
    | .error .undefined => .error .undefined

/-- A C-contiguous vector of `2^31` items of `uint8`: its extent does not fit
a C `int`. -/
def u8Huge : PyArrayObject :=
  { typenum := NPY_UBYTE, dims := [2147483648], strides := [1], data := 64 }

theorem toU32_natCast (n : Nat) (h : n < 4294967296) : toU32 (n : Int) = n := by
  unfold toU32
  have h1 : ((n : Int) % 4294967296) = (n : Int) :=
    Int.emod_eq_of_lt (Int.natCast_nonneg n) (by exact_mod_cast h)
  rw [h1]
  exact Int.toNat_natCast n

theorem ofU32_small (n : Nat) (h : n < 2147483648) : ofU32 n = (n : Int) := by
  unfold ofU32
  have h1 : n % 4294967296 = n := Nat.mod_eq_of_lt (by omega)
  rw [h1, if_pos h]

theorem toInt32_of_range (x : Int) (h0 : 0 ≤ x) (h1 : x < 2147483648) : toInt32 x = x := by
  obtain ⟨n, rfl⟩ := Int.eq_ofNat_of_zero_le h0
  have hn : n < 2147483648 := by exact_mod_cast h1
  unfold toInt32
  rw [toU32_natCast n (by omega), ofU32_small n hn]

theorem intShr_natCast (n k : Nat) : intShr (n : Int) k = ((n >>> k : Nat) : Int) := by
  unfold intShr
  rw [Nat.shiftRight_eq_div_pow]
  push_cast
  rfl

set_option maxRecDepth 100000 in
theorem channel_bits : ∀ k, k < 512 → ∀ d, d < 8 →
    ((d ||| k <<< 3) &&& 4088) >>> 3 = k ∧ (d ||| k <<< 3) &&& 7 = d ∧
      (d ||| k <<< 3) < 4096 ∧ k <<< 3 < 4096 := by
  decide

theorem CV_MAKETYPE_zero (k : Nat) (hk : k < 512) :
    CV_MAKETYPE 0 ((k : Int) + 1) = ((k <<< 3 : Nat) : Int) := by
  have hb := (channel_bits k hk 0 (by omega)).2.2.2
  unfold CV_MAKETYPE CV_MAT_DEPTH intShl intAnd CV_CN_SHIFT
  have h0 : toU32 0 = 0 := by decide
  have h1 : ((k : Int) + 1 - 1) = (k : Int) := by omega
  rw [h1, toU32_natCast k (by omega), h0, ofU32_small _ (by omega : k <<< 3 < 2147483648)]
  simp [ofU32]

theorem folded_type_bits (d k : Nat) (hd : d < 8) (hk : k < 512) :
    CV_MAT_CN (intOr (d : Int) (CV_MAKETYPE 0 ((k : Int) + 1))) = (k : Int) + 1 ∧
      CV_MAT_DEPTH (intOr (d : Int) (CV_MAKETYPE 0 ((k : Int) + 1))) = (d : Int) := by
  obtain ⟨h1, h2, h3, h4⟩ := channel_bits k hk d hd
  have hor : intOr (d : Int) (CV_MAKETYPE 0 ((k : Int) + 1)) = ((d ||| k <<< 3 : Nat) : Int) := by
    rw [CV_MAKETYPE_zero k hk]
    unfold intOr
    rw [toU32_natCast d (by omega), toU32_natCast _ (by omega : k <<< 3 < 4294967296),
      ofU32_small _ (by omega)]
  rw [hor]
  have hmask : toU32 CV_MAT_CN_MASK = 4088 := by decide
  have h7 : toU32 (CV_DEPTH_MAX - 1) = 7 := by decide
  constructor
  · unfold CV_MAT_CN intAnd CV_CN_SHIFT
    rw [toU32_natCast _ (by omega : d ||| k <<< 3 < 4294967296), hmask]
    have hlt : (d ||| k <<< 3) &&& 4088 < 2147483648 :=
      lt_of_le_of_lt Nat.and_le_right (by omega)
    rw [ofU32_small _ hlt, intShr_natCast, h1]
  · unfold CV_MAT_DEPTH intAnd
    rw [toU32_natCast _ (by omega : d ||| k <<< 3 < 4294967296), h7]
    have hlt : (d ||| k <<< 3) &&& 7 < 2147483648 :=
      lt_of_le_of_lt Nat.and_le_right (by omega)
    rw [ofU32_small _ hlt, h2]

/-! ## The copy decision of the layout analyzer -/

theorem scanStrides_true (dm : DataModel) (n : Nat) (s : List Int) (e : Nat) :
    ∀ k, scanStrides dm n s e k true = true := by
  intro k
  cases k <;> simp [scanStrides]

theorem scanStrides_iff (dm : DataModel) (n : Nat) (s : List Int) (e : Nat) :
    ∀ (k : Nat) (nc : Bool), scanStrides dm n s e k nc = true ↔
      (nc = true ∨ ∃ i, i < k ∧ strideViolation dm n s e i) := by
  intro k
  induction k with
  | zero => intro nc; simp [scanStrides]
  | succ k ih =>
    intro nc
    cases nc with
    | true => simp [scanStrides]
    | false =>
      by_cases hv : strideViolation dm n s e k
      · have hv2 := hv
        unfold strideViolation at hv2
        simp only [scanStrides, if_pos hv2, scanStrides_true]
        simp only [Bool.false_eq_true, if_false, false_or, true_iff]
        exact ⟨k, Nat.lt_succ_self k, hv⟩
      · have hv2 := hv
        unfold strideViolation at hv2
        simp only [scanStrides, if_neg hv2, Bool.false_eq_true, if_false, false_or]
        rw [ih]
        simp only [Bool.false_eq_true, false_or]
        constructor
        · rintro ⟨i, hi, h⟩
          exact ⟨i, Nat.lt_succ_of_lt hi, h⟩
        · rintro ⟨i, hi, h⟩
          rcases Nat.lt_succ_iff_lt_or_eq.mp hi with hlt | heq
          · exact ⟨i, hlt, h⟩
          · subst heq; exact absurd h hv

theorem scanAllStrides_iff (dm : DataModel) (n : Nat) (s : List Int) (e : Nat) :
    ∀ (k : Nat) (nc : Bool), scanAllStrides dm n s e k nc = true ↔
      (nc = true ∨ ∃ i, i < k ∧ strideViolation dm n s e i) := by
  intro k
  induction k with
  | zero => intro nc; simp [scanAllStrides]
  | succ k ih =>
    intro nc
    by_cases hv : strideViolation dm n s e k
    · have hv2 := hv
      unfold strideViolation at hv2
      simp only [scanAllStrides, if_pos hv2]
      rw [ih]
      simp only [true_or, true_iff]
      exact Or.inr ⟨k, Nat.lt_succ_self k, hv⟩
    · have hv2 := hv
      unfold strideViolation at hv2
      simp only [scanAllStrides, if_neg hv2]
      rw [ih]
      constructor
      · rintro (h | ⟨i, hi, h⟩)
        · exact Or.inl h
        · exact Or.inr ⟨i, Nat.lt_succ_of_lt hi, h⟩
      · rintro (h | ⟨i, hi, h⟩)
        · exact Or.inl h
        · rcases Nat.lt_succ_iff_lt_or_eq.mp hi with hlt | heq
          · exact Or.inr ⟨i, hlt, h⟩
          · subst heq; exact absurd h hv

theorem toMatType_needcopy_eq_needcast (dm : DataModel) (t : Int) :
    (toMatType dm t).needcopy = (toMatType dm t).needcast := by
  unfold toMatType
  simp only
  split_ifs <;> rfl

theorem violation_exists_iff (dm : DataModel) (n : Nat) (s : List Int) (e : Nat) :
    (∃ i, i < n ∧ strideViolation dm n s e i) ↔
      ((1 ≤ n ∧ toSizeT dm (s.getD (n - 1) 0) ≠ e) ∨
        ∃ i, i + 1 < n ∧ s.getD i 0 < s.getD (i + 1) 0) := by
  constructor
  · rintro ⟨i, hi, h | h⟩
    · left
      obtain ⟨h1, h2⟩ := h
      have : n - 1 = i := by omega
      rw [this]
      exact ⟨by omega, h2⟩
    · right
      exact ⟨i, h.1, h.2⟩
  · rintro (⟨h1, h2⟩ | ⟨i, h1, h2⟩)
    · exact ⟨n - 1, by omega, Or.inl ⟨by omega, h2⟩⟩
    · exact ⟨i, by omega, Or.inr ⟨h1, h2⟩⟩

theorem needcopyFlag_true_iff (dm : DataModel) (a : PyArrayObject) :
    needcopyFlag dm a (CV_ELEM_SIZE1 dm (toMatType dm a.typenum).type)
        (toMatType dm a.typenum).needcopy = true ↔
      ((toMatType dm a.typenum).needcast = true ∨
        (1 ≤ a.dims.length ∧
          toSizeT dm (a.strides.getD (a.dims.length - 1) 0) ≠
            CV_ELEM_SIZE1 dm (toMatType dm a.typenum).type) ∨
        (∃ i, i + 1 < a.dims.length ∧ a.strides.getD i 0 < a.strides.getD (i + 1) 0) ∨
        ((a.dims.length = 3 ∧ a.dims.getD 2 0 ≤ CV_CN_MAX) ∧
          a.strides.getD 1 0 ≠
            (CV_ELEM_SIZE1 dm (toMatType dm a.typenum).type : Int) * a.dims.getD 2 0)) := by
  rw [toMatType_needcopy_eq_needcast]
  unfold needcopyFlag
  simp only [ismultichannel, decide_eq_true_eq]
  by_cases hm : (a.dims.length = 3 ∧ a.dims.getD 2 0 ≤ CV_CN_MAX) ∧
      a.strides.getD 1 0 ≠
        (CV_ELEM_SIZE1 dm (toMatType dm a.typenum).type : Int) * a.dims.getD 2 0
  · rw [if_pos hm]
    simp only [true_iff]
    exact Or.inr (Or.inr (Or.inr hm))
  · rw [if_neg hm, scanStrides_iff, violation_exists_iff]
    constructor
    · rintro (h | h | h)
      · exact Or.inl h
      · exact Or.inr (Or.inl h)
      · exact Or.inr (Or.inr (Or.inl h))
    · rintro (h | h | h | h)
      · exact Or.inl h
      · exact Or.inr (Or.inl h)
      · exact Or.inr (Or.inr h)
      · exact absurd h hm

/-- C3: the value of `needcopy` that `toMat` tests on line 239 is true exactly
when a cast is needed, or the rank is at least 1 and the innermost stride
(converted to `size_t`) differs from the per-channel element size, or some
axis has a smaller stride than the next inner axis, or the array is treated
as multi-channel (rank 3, `sizes[2] <= CV_CN_MAX`) and `s[1]` differs from
the element size times `sizes[2]`; so an array with no cast and none of the
violations is not copied. The loop with its early exit computes the same flag
as the loop that visits every axis. -/
theorem copy_decision (dm : DataModel) (a : PyArrayObject) :
    (needcopyFlag dm a (CV_ELEM_SIZE1 dm (toMatType dm a.typenum).type)
        (toMatType dm a.typenum).needcopy = true ↔
      ((toMatType dm a.typenum).needcast = true ∨
        (1 ≤ a.dims.length ∧
          toSizeT dm (a.strides.getD (a.dims.length - 1) 0) ≠
            CV_ELEM_SIZE1 dm (toMatType dm a.typenum).type) ∨
        (∃ i, i + 1 < a.dims.length ∧ a.strides.getD i 0 < a.strides.getD (i + 1) 0) ∨
        ((a.dims.length = 3 ∧ a.dims.getD 2 0 ≤ CV_CN_MAX) ∧
          a.strides.getD 1 0 ≠
            (CV_ELEM_SIZE1 dm (toMatType dm a.typenum).type : Int) * a.dims.getD 2 0))) ∧
    (∀ (e : Nat) (nc : Bool),
      scanStrides dm a.dims.length a.strides e a.dims.length nc =
        scanAllStrides dm a.dims.length a.strides e a.dims.length nc) := by
  refine ⟨needcopyFlag_true_iff dm a, ?_⟩
  intro e nc
  rw [Bool.eq_iff_iff, scanStrides_iff, scanAllStrides_iff]

/-! ## The type tables -/

theorem toMatDepth_cases (t : Int) :
    (t = NPY_UBYTE ∨ t = NPY_BYTE ∨ t = NPY_USHORT ∨ t = NPY_SHORT ∨ t = NPY_INT ∨
      t = NPY_LONG ∨ t = NPY_FLOAT ∨ t = NPY_DOUBLE) ∨ toMatDepth t = -1 := by
  unfold toMatDepth
  by_cases h1 : t = NPY_UBYTE
  · exact Or.inl (Or.inl h1)
  by_cases h2 : t = NPY_BYTE
  · exact Or.inl (Or.inr (Or.inl h2))
  by_cases h3 : t = NPY_USHORT
  · exact Or.inl (Or.inr (Or.inr (Or.inl h3)))
  by_cases h4 : t = NPY_SHORT
  · exact Or.inl (Or.inr (Or.inr (Or.inr (Or.inl h4))))
  by_cases h5 : t = NPY_INT
  · exact Or.inl (Or.inr (Or.inr (Or.inr (Or.inr (Or.inl h5)))))
  by_cases h6 : t = NPY_LONG
  · exact Or.inl (Or.inr (Or.inr (Or.inr (Or.inr (Or.inr (Or.inl h6))))))
  by_cases h7 : t = NPY_FLOAT
  · exact Or.inl (Or.inr (Or.inr (Or.inr (Or.inr (Or.inr (Or.inr (Or.inl h7)))))))
  by_cases h8 : t = NPY_DOUBLE
  · exact Or.inl (Or.inr (Or.inr (Or.inr (Or.inr (Or.inr (Or.inr (Or.inr h8)))))))
  · right
    simp [h1, h2, h3, h4, h5, h6, h7, h8]

/-- Away from `NPY_LONG` on a platform with 64-bit `long`, the type mapping of
`toMat` has one of the three admissible outcomes. -/
theorem type_mapping_sound_except_long (dm : DataModel) (t : Int)
    (h : dm.sizeofLong = 8 → t ≠ NPY_LONG) : TypeOutcomeOk dm t := by
  rcases toMatDepth_cases t with h1 | h1
  · rcases h1 with h1 | h1 | h1 | h1 | h1 | h1 | h1 | h1
    · subst h1; cases dm <;> decide
    · subst h1; cases dm <;> decide
    · subst h1; cases dm <;> decide
    · subst h1; cases dm <;> decide
    · subst h1; cases dm <;> decide
    · subst h1
      cases dm
      · exact absurd rfl (h rfl)
      · decide
      · decide
    · subst h1; cases dm <;> decide
    · subst h1; cases dm <;> decide
  · unfold TypeOutcomeOk toMatType
    simp only [h1]
    by_cases hc : t = NPY_INT64 dm ∨ t = NPY_UINT64 dm ∨ (-1 : Int) = NPY_LONG
    · right; left
      simp [hc]
    · right; right
      simp [hc]

/-- C4 (failing input): with 64-bit `long`, the type mapping of `toMat` sends
`NPY_LONG`, which then is `NPY_INT64` and has 8-byte signed items, to the
4-byte depth `CV_32S` with neither `needcast` nor `needcopy` set and without
reporting a failure, so none of the three outcomes of the claim holds. -/
theorem long_mapped_without_cast :
    toMatType .LP64 NPY_LONG =
        { type := CV_32S, new_typenum := NPY_LONG, needcopy := false, needcast := false,
          failed := false } ∧
      NPY_INT64 .LP64 = NPY_LONG ∧ npyElsize .LP64 NPY_LONG = some 8 ∧
      CV_ELEM_SIZE1 .LP64 CV_32S = 4 ∧ ¬ TypeOutcomeOk .LP64 NPY_LONG := by
  decide

/-! ## Heap and record bookkeeping -/

theorem arr_eq_some (w : World) (o : Nat) (a : PyArrayObject) (h : w.arr (some o) = some a) :
    ∃ rc, w.heap[o]? = some ⟨rc, .ndarray a⟩ ∧ 0 < rc := by
  unfold World.arr World.obj at h
  cases hg : w.heap[o]? with
  | none => simp [hg] at h
  | some ob =>
    simp only [hg] at h
    by_cases hp : 0 < ob.ob_refcnt
    · simp only [if_pos hp] at h
      obtain ⟨rc, k⟩ := ob
      cases k <;> simp at h
      subst h
      exact ⟨rc, rfl, hp⟩
    · simp [if_neg hp] at h

theorem obj_of_heap (w : World) (o : Nat) (ob : PyObject) (h : w.heap[o]? = some ob)
    (hp : 0 < ob.ob_refcnt) : w.obj (some o) = some ob := by
  simp [World.obj, h, hp]

theorem arr_of_heap (w : World) (o : Nat) (rc : Int) (a : PyArrayObject)
    (h : w.heap[o]? = some ⟨rc, .ndarray a⟩) (hp : 0 < rc) : w.arr (some o) = some a := by
  simp [World.arr, World.obj, h, hp]

theorem refcnt_of_heap (w : World) (o : Nat) (ob : PyObject) (h : w.heap[o]? = some ob) :
    w.refcnt o = ob.ob_refcnt := by
  simp [World.refcnt, h]

theorem record_last (v : World) (R : List (Option UMatData)) (x : Option UMatData)
    (h : v.records = R ++ [x]) : v.record (some R.length) = x := by
  simp [World.record, h]

theorem set_append_singleton {α : Type} (l : List α) (x y : α) :
    (l ++ [x]).set l.length y = l ++ [y] := by
  induction l with
  | nil => rfl
  | cons z zs ih => simp [ih]

theorem record_mk_last (hs : List PyObject) (rs : List (Option UMatData))
    (x : Option UMatData) (e : Bool) (n l d c : Nat) :
    ({ heap := hs, records := rs ++ [x], pyErr := e, pyNone := n, heapLimit := l,
       nextData := d, copies := c } : World).record (some rs.length) = x := by
  simp [World.record]

/-! ## The descriptor handed to the matrix constructor -/

theorem toInt32_nonneg_of_mem (dims : List Int) (h : ∀ d ∈ dims, 0 ≤ d ∧ d < 2147483648) :
    dims.map toInt32 = dims := by
  induction dims with
  | nil => rfl
  | cons x xs ih =>
    have hx := h x (List.mem_cons_self x xs)
    rw [List.map_cons, toInt32_of_range x hx.1 hx.2,
      ih (fun d hd => h d (List.mem_cons_of_mem x hd))]

theorem toMatDescriptor_shape (dm : DataModel) (a a1 : PyArrayObject) (type : Int)
    (hs : a.dims.length ≤ a1.strides.length)
    (hext : ∀ d ∈ a.dims, 0 ≤ d ∧ d < 2147483648) :
    1 ≤ (toMatDescriptor dm a a1 type).ndims ∧
      (toMatDescriptor dm a a1 type).ndims ≤ (toMatDescriptor dm a a1 type).size.length ∧
      (toMatDescriptor dm a a1 type).ndims ≤ (toMatDescriptor dm a a1 type).step.length ∧
      (toMatDescriptor dm a a1 type).ndims ≤ a.dims.length + 1 ∧
      (toMatDescriptor dm a a1 type).data = a1.data ∧
      (∀ s ∈ (toMatDescriptor dm a a1 type).size, 0 ≤ s) := by
  unfold toMatDescriptor
  simp only [toInt32_nonneg_of_mem a.dims hext]
  by_cases hm : ismultichannel a = true
  · have h3 : a.dims.length = 3 := by
      simp only [ismultichannel, decide_eq_true_eq] at hm
      exact hm.1
    simp only [hm, if_true, h3]
    simp only [OfNat.ofNat_ne_zero, if_false, List.length_map, List.length_take, h3]
    refine ⟨by omega, by omega, ?_, by omega, trivial, fun s hsm => (hext s hsm).1⟩
    simp only [Nat.min_def]
    split_ifs <;> omega
  · simp only [hm]
    by_cases h0 : a.dims.length = 0
    · simp [h0]
    · simp only [h0, if_false, List.length_map, List.length_take, Bool.false_eq_true]
      refine ⟨by omega, le_refl _, ?_, by omega, trivial, fun s hsm => (hext s hsm).1⟩
      simp only [Nat.min_def]
      split_ifs
      omega

theorem any_neg_false (l : List Int) (h : ∀ s ∈ l, 0 ≤ s) :
    l.any (fun s => decide (s < 0)) = false := by
  rw [List.any_eq_false]
  intro x hx
  have := h x hx
  simp
  omega

/-! ## The zero-copy path of `toMat` -/

theorem toMatArgs_zero_copy (dm : DataModel) (w : World) (o : Nat) (a : PyArrayObject)
    (h : ZeroCopyInput dm w o a) :
    toMatArgs dm o a w =
      .ok (o, toMatDescriptor dm a a (toMatType dm a.typenum).type, w) := by
  have hr := h.rank
  unfold toMatArgs
  simp only [h.wf, ne_eq, not_true_eq_false, if_false, h.supported, h.nocopy,
    Bool.false_eq_true, toMatCopy]
  have h1 : ¬ (CV_MAX_DIM ≤ a.dims.length) := by omega
  have h2 : ¬ (CV_MAX_DIM + 1 < a.dims.length ∨ a.dims.length < a.dims.length) := by omega
  simp only [h1, h2, if_false]

/-- The storage record created by binding object `o` with descriptor `d`. -/
theorem toMatBind_ok (dm : DataModel) (w : World) (o : Nat) (a : PyArrayObject) (rc : Int)
    (d : MatArgs) (hheap : w.heap[o]? = some ⟨rc, .ndarray a⟩) (hrc : 0 < rc)
    (hdata : d.data ≠ 0) (h1 : 1 ≤ d.ndims) (h2 : d.ndims ≤ d.size.length)
    (h3 : d.ndims ≤ d.step.length) (h4 : d.ndims ≤ a.strides.length + 1)
    (h5 : d.ndims ≤ CV_MAX_DIM) (h6 : ∀ s ∈ d.size, 0 ≤ s) :
    ∃ m u, toMatBind dm o d w =
        .ok (m, { w with heap := w.heap.set o ⟨rc + 1, .ndarray a⟩,
                         records := w.records ++ [some u] }) ∧
      m.u = some w.records.length ∧ m.data = d.data ∧ m.allocator = .numpy ∧
      u.userdata = some o ∧ u.currAllocator = .numpy ∧ u.refcount = 1 := by
  have hany : (d.size.take d.ndims).any (fun s => decide (s < 0)) = false :=
    any_neg_false _ (fun s hs => h6 s (List.mem_of_mem_take hs))
  have hc1 : ¬ (d.size.length < d.ndims ∨ d.step.length < d.ndims) := by omega
  have hc2 : ¬ (CV_MAX_DIM < d.ndims ∨
      (d.size.take d.ndims).any (fun s => decide (s < 0)) = true) := by
    rw [hany]; simp; omega
  have hc3 : ¬ (d.ndims = 0 ∨ a.strides.length + 1 < d.ndims ∨ d.size.length = 0 ∨
      d.step.length < d.ndims) := by omega
  have harr : w.arr (some o) = some a := arr_of_heap w o rc a hheap hrc
  unfold toMatBind Mat.ofData
  simp only [hc1, hc2, if_false, ne_eq, hdata, not_false_eq_true, if_true,
    NumpyAllocator.allocate_object, harr, hc3, newRecord, Mat.addref]
  simp only [World.record, List.getElem?_append_right (le_refl _), Nat.sub_self,
    List.getElem?_cons_zero, setRecord, Py_INCREF, World.obj, hheap, hrc, if_true,
    World.setRefcnt]
  rw [set_append_singleton]
  exact ⟨_, _, rfl, rfl, rfl, rfl, rfl, rfl, by simp⟩

theorem toMat_zero_copy (dm : DataModel) (w : World) (o : Nat) (a : PyArrayObject)
    (h : ZeroCopyInput dm w o a) :
    ∃ m u, NDArrayConverter.toMat dm (some o) w =
        .ok (m, { w with heap := w.heap.set o ⟨w.refcnt o + 1, .ndarray a⟩,
                         records := w.records ++ [some u] }) ∧
      m.u = some w.records.length ∧ m.data = a.data ∧ m.allocator = .numpy ∧
      u.userdata = some o ∧ u.currAllocator = .numpy ∧ u.refcount = 1 := by
  obtain ⟨rc, hheap, hrc⟩ := arr_eq_some w o a h.live
  have hobj := obj_of_heap w o _ hheap hrc
  have hd := toMatDescriptor_shape dm a a (toMatType dm a.typenum).type (le_of_eq h.wf.symm)
    h.extents
  obtain ⟨d1, d2, d3, d4, d5, d6⟩ := hd
  have hr := h.rank
  have hwf := h.wf
  obtain ⟨m, u, hb, hm⟩ := toMatBind_ok dm w o a rc
    (toMatDescriptor dm a a (toMatType dm a.typenum).type) hheap hrc
    (by rw [d5]; exact h.data) d1 d2 d3 (by omega) (by omega) d6
  refine ⟨m, u, ?_, ?_⟩
  · unfold NDArrayConverter.toMat
    simp only [hobj, toMatArgs_zero_copy dm w o a h, hb, refcnt_of_heap w o _ hheap]
  · rw [d5] at hm
    exact hm

/-! ## Reference counting -/

theorem Py_INCREF_ok (w : World) (o : Nat) (ob : PyObject) (h : w.heap[o]? = some ob)
    (hp : 0 < ob.ob_refcnt) :
    Py_INCREF (some o) w =
      .ok { w with heap := w.heap.set o { ob with ob_refcnt := ob.ob_refcnt + 1 } } := by
  simp [Py_INCREF, World.obj, h, hp, World.setRefcnt]

theorem Py_XDECREF_ok (w : World) (o : Nat) (ob : PyObject) (h : w.heap[o]? = some ob)
    (hp : 0 < ob.ob_refcnt) :
    Py_XDECREF (some o) w =
      .ok { w with heap := w.heap.set o { ob with ob_refcnt := ob.ob_refcnt - 1 } } := by
  simp [Py_XDECREF, World.obj, h, hp, World.setRefcnt]

theorem lt_length_of_getElem? {α : Type} (l : List α) (i : Nat) (x : α)
    (h : l[i]? = some x) : i < l.length := by
  by_contra hc
  rw [List.getElem?_eq_none (by omega)] at h
  cases h

theorem getElem?_set_same {α : Type} (l : List α) (i : Nat) (x y : α)
    (h : l[i]? = some x) : (l.set i y)[i]? = some y := by
  have := lt_length_of_getElem? l i x h
  simp [this]

theorem refcnt_set_other (w : World) (o j : Nat) (x : PyObject) (h : j ≠ o) :
    ({ w with heap := w.heap.set o x } : World).refcnt j = w.refcnt j := by
  simp [World.refcnt, List.getElem?_set_ne (Ne.symm h)]

/-- The three steps of a zero-copy round trip, one after the other. -/
theorem round_trip_steps (dm : DataModel) (w : World) (o : Nat) (a : PyArrayObject)
    (h : ZeroCopyInput dm w o a) :
    ∃ m w1 w2 w3,
      NDArrayConverter.toMat dm (some o) w = .ok (m, w1) ∧
      NDArrayConverter.toNDArray dm m w1 = .ok (some o, w2) ∧
      m.data = a.data ∧
      w2.arr (some o) = some a ∧
      w2.heap.length = w.heap.length ∧
      w2.refcnt o = w.refcnt o + 2 ∧
      (∀ j, j ≠ o → w2.refcnt j = w.refcnt j) ∧
      Mat.release m w2 = .ok w3 ∧
      w3.heap.length = w.heap.length ∧
      w3.refcnt o = w.refcnt o + 1 ∧
      (∀ j, j ≠ o → w3.refcnt j = w.refcnt j) ∧
      w3.arr (some o) = some a := by
  obtain ⟨rc, hheap, hrc⟩ := arr_eq_some w o a h.live
  obtain ⟨m, u, hm, hu, hdata, halloc, hud, hca, hrf⟩ := toMat_zero_copy dm w o a h
  have hrcw : w.refcnt o = rc := refcnt_of_heap w o _ hheap
  rw [hrcw] at hm
  have hlt := lt_length_of_getElem? _ _ _ hheap
  have hd0 : m.data ≠ 0 := by rw [hdata]; exact h.data
  have hc : ¬ (m.u = none ∨ m.allocator ≠ .numpy) := by simp [hu, halloc]
  have hh1 : (w.heap.set o ⟨rc + 1, .ndarray a⟩)[o]? = some ⟨rc + 1, .ndarray a⟩ :=
    getElem?_set_same _ _ _ _ hheap
  have hh2 : ((w.heap.set o ⟨rc + 1, .ndarray a⟩).set o ⟨rc + 1 + 1, .ndarray a⟩)[o]? =
      some ⟨rc + 1 + 1, .ndarray a⟩ := getElem?_set_same _ _ _ _ hh1
  refine ⟨m,
    { w with heap := w.heap.set o ⟨rc + 1, .ndarray a⟩, records := w.records ++ [some u] },
    { w with heap := (w.heap.set o ⟨rc + 1, .ndarray a⟩).set o ⟨rc + 1 + 1, .ndarray a⟩,
             records := w.records ++ [some u] },
    { w with heap := ((w.heap.set o ⟨rc + 1, .ndarray a⟩).set o
               ⟨rc + 1 + 1, .ndarray a⟩).set o ⟨rc + 1 + 1 - 1, .ndarray a⟩,
             records := w.records ++ [none] },
    hm, ?_, hdata, ?_, ?_, ?_, ?_, ?_, ?_, ?_, ?_, ?_⟩
  · unfold NDArrayConverter.toNDArray
    rw [if_neg hd0, if_neg hc, hu, record_last _ w.records (some u) rfl]
    simp only [hud]
    rw [Py_INCREF_ok _ o ⟨rc + 1, .ndarray a⟩ hh1 (by simp; omega)]
  · exact arr_of_heap _ o (rc + 1 + 1) a hh2 (by omega)
  · simp
  · simp only [World.refcnt, hh2, hheap]
    omega
  · intro j hj
    simp [World.refcnt, List.getElem?_set_ne (Ne.symm hj)]
  · unfold Mat.release
    rw [hu, record_last _ w.records (some u) rfl]
    simp only [hrf, if_true, hca, setRecord, set_append_singleton]
    unfold NumpyAllocator.deallocate
    rw [record_last _ w.records _ rfl]
    simp only []
    rw [hud, Py_XDECREF_ok _ o ⟨rc + 1 + 1, .ndarray a⟩ hh2 (by simp; omega)]
    simp [deleteRecord, set_append_singleton]
  · simp
  · simp only [World.refcnt, hheap]
    rw [getElem?_set_same _ _ _ _ hh2]
    simp
  · intro j hj
    simp [World.refcnt, List.getElem?_set_ne (Ne.symm hj)]
  · have hh3 : (((w.heap.set o ⟨rc + 1, .ndarray a⟩).set o ⟨rc + 1 + 1, .ndarray a⟩).set o
        ⟨rc + 1 + 1 - 1, .ndarray a⟩)[o]? = some ⟨rc + 1 + 1 - 1, .ndarray a⟩ :=
      getElem?_set_same _ _ _ _ hh2
    exact arr_of_heap _ o (rc + 1 + 1 - 1) a hh3 (by omega)

/-- C1 (amended): for every live, well-formed array `o` of mapped element type
and rank below `CV_MAX_DIM`, with non-null data and extents that fit a C `int`,
that the analyzer accepts without copy or cast, the expression
`toNDArray(toMat(o))` (whose temporary matrix is destroyed at its end) returns
the object `o` itself, unchanged and with the data address the matrix was
bound to; no foreign object is created, the reference count of `o` is exactly
1 higher than before, and no other count changes. While the temporary matrix
is alive the count is 2 higher. -/
theorem zero_copy_round_trip (dm : DataModel) (w : World) (o : Nat) (a : PyArrayObject)
    (h : ZeroCopyInput dm w o a) :
    ∃ w3, roundTrip dm (some o) w = .ok (some o, w3) ∧
      w3.arr (some o) = some a ∧
      w3.heap.length = w.heap.length ∧
      w3.refcnt o = w.refcnt o + 1 ∧
      (∀ j, j ≠ o → w3.refcnt j = w.refcnt j) ∧
      ∃ m w1 w2, NDArrayConverter.toMat dm (some o) w = .ok (m, w1) ∧ m.data = a.data ∧
        NDArrayConverter.toNDArray dm m w1 = .ok (some o, w2) ∧
        w2.refcnt o = w.refcnt o + 2 ∧ Mat.release m w2 = .ok w3 := by
  obtain ⟨m, w1, w2, w3, h1, h2, h3, _, _, h6, _, h8, h9, h10, h11, h12⟩ :=
    round_trip_steps dm w o a h
  refine ⟨w3, ?_, h12, h9, h10, h11, m, w1, w2, h1, h3, h2, h6, h8⟩
  simp only [roundTrip, h1, h2, h8]

/-! ## Repeated binds and releases -/

theorem bindN_spec (dm : DataModel) (o : Nat) (a : PyArrayObject) :
    ∀ (N : Nat) (w : World) (rc : Int), ZeroCopyInput dm w o a →
      w.heap[o]? = some ⟨rc, .ndarray a⟩ →
      ∃ ms w1, bindN dm o N w = .ok (ms, w1) ∧
        w1.heap[o]? = some ⟨rc + N, .ndarray a⟩ ∧
        w1.heap.length = w.heap.length ∧
        ms.map Mat.u = (List.range N).map (fun j => some (w.records.length + j)) ∧
        (∀ j, j < N → ∃ x, w1.records[w.records.length + j]? = some (some x) ∧
          x.userdata = some o) ∧
        (∀ i, i < w.records.length → w1.records[i]? = w.records[i]?) := by
  intro N
  induction N with
  | zero =>
    intro w rc _ hheap
    exact ⟨[], w, rfl, by simpa using hheap, rfl, rfl,
      fun j hj => absurd hj (Nat.not_lt_zero j), fun _ _ => rfl⟩
  | succ N ih =>
    intro w rc h hheap
    obtain ⟨m, u, hm, hu, _, _, hud, _, _⟩ := toMat_zero_copy dm w o a h
    rw [refcnt_of_heap w o _ hheap] at hm
    have hh1 : (w.heap.set o ⟨rc + 1, .ndarray a⟩)[o]? = some ⟨rc + 1, .ndarray a⟩ :=
      getElem?_set_same _ _ _ _ hheap
    obtain ⟨rc0, hheap0, hrc0⟩ := arr_eq_some w o a h.live
    have hrc : 0 < rc := by
      rw [hheap] at hheap0
      cases hheap0
      exact hrc0
    have h1 : ZeroCopyInput dm
        { w with heap := w.heap.set o ⟨rc + 1, .ndarray a⟩, records := w.records ++ [some u] }
        o a :=
      { h with live := arr_of_heap _ o (rc + 1) a hh1 (by omega) }
    obtain ⟨ms, w1, hb, hw1, hlen, hmu, hrec, hold⟩ := ih _ (rc + 1) h1 hh1
    simp only [List.length_append, List.length_singleton] at hold
    refine ⟨m :: ms, w1, ?_, ?_, ?_, ?_, ?_, ?_⟩
    · simp only [bindN, hm, hb]
    · rw [hw1]
      congr 2
      push_cast
      omega
    · rw [hlen]
      simp
    · rw [List.map_cons, hu, hmu, List.range_succ_eq_map, List.map_cons, List.map_map]
      simp only [List.length_append, List.length_singleton, Nat.add_zero, List.cons.injEq,
        true_and]
      apply List.map_congr_left
      intro j _
      simp only [Function.comp, Option.some.injEq]
      omega
    · intro j hj
      cases j with
      | zero =>
        refine ⟨u, ?_, hud⟩
        rw [Nat.add_zero, hold _ (Nat.lt_succ_self _)]
        simp
      | succ j =>
        obtain ⟨x, hx, hxu⟩ := hrec j (by omega)
        refine ⟨x, ?_, hxu⟩
        rw [← hx]
        simp only [List.length_append, List.length_singleton]
        congr 1
        omega
    · intro i hi
      rw [hold i (by omega)]
      exact List.getElem?_append_left hi

theorem releaseAll_spec (o : Nat) (kind : PyKind) :
    ∀ (ms : List Mat) (v : World) (c : Int),
      v.heap[o]? = some ⟨c, kind⟩ → (ms.length : Int) ≤ c → (ms.map Mat.u).Nodup →
      (∀ m ∈ ms, ∃ r x, m.u = some r ∧ v.records[r]? = some (some x) ∧ x.userdata = some o) →
      ∃ v1, releaseAll ms v = .ok v1 ∧ v1.heap[o]? = some ⟨c - ms.length, kind⟩ ∧
        v1.heap.length = v.heap.length := by
  intro ms
  induction ms with
  | nil =>
    intro v c hheap _ _ _
    exact ⟨v, rfl, by simpa using hheap, rfl⟩
  | cons m ms ih =>
    intro v c hheap hc hnd hrec
    obtain ⟨r, x, hmu, hr, hxu⟩ := hrec m (List.mem_cons_self m ms)
    simp only [List.length_cons, Nat.cast_add, Nat.cast_one] at hc
    have hcpos : 0 < c := by
      have : (0 : Int) ≤ (ms.length : Int) := Int.natCast_nonneg _
      omega
    rw [List.map_cons, List.nodup_cons] at hnd
    have hdealloc : NumpyAllocator.deallocate m.u v =
        .ok (deleteRecord r { v with heap := v.heap.set o ⟨c - 1, kind⟩ }) := by
      unfold NumpyAllocator.deallocate
      rw [hmu]
      simp only [World.record, hr, hxu]
      rw [Py_XDECREF_ok v o ⟨c, kind⟩ hheap hcpos]
    have hh1 : (v.heap.set o ⟨c - 1, kind⟩)[o]? = some ⟨c - 1, kind⟩ :=
      getElem?_set_same _ _ _ _ hheap
    obtain ⟨v1, hv1, hv1h, hv1l⟩ := ih (deleteRecord r { v with heap := v.heap.set o ⟨c - 1, kind⟩ })
      (c - 1) hh1 (by omega) hnd.2 (by
        intro m' hm'
        obtain ⟨r', x', hmu', hr', hxu'⟩ := hrec m' (List.mem_cons_of_mem m hm')
        refine ⟨r', x', hmu', ?_, hxu'⟩
        have hne : r ≠ r' := by
          intro heq
          apply hnd.1
          rw [hmu, heq, ← hmu']
          exact List.mem_map_of_mem Mat.u hm'
        simp only [deleteRecord]
        rw [List.getElem?_set_ne hne]
        exact hr')
    refine ⟨v1, ?_, ?_, ?_⟩
    · simp only [releaseAll, hdealloc, hv1]
    · rw [hv1h]
      congr 2
      simp only [List.length_cons, Nat.cast_add, Nat.cast_one]
      omega
    · rw [hv1l]
      simp [deleteRecord]

/-- C2 (amended): for a live, well-formed array `o` with non-null data on
the zero-copy path (mapped element type, rank below `CV_MAX_DIM`, neither copy
nor cast asked for) whose extents all fit a C `int`, `N` calls of `toMat(o)`
succeed and leave the reference count of `o` at its initial value plus `N`
(so each call adds exactly one); releasing the storage records of the first
`k` resulting matrices through `NumpyAllocator::deallocate` succeeds and
leaves it at the initial value plus `N - k` (so each release removes exactly
one), and after all `N` releases it is the initial value again. No foreign
object is created. -/
theorem bind_release_neutral (dm : DataModel) (w : World) (o : Nat) (a : PyArrayObject)
    (h : ZeroCopyInput dm w o a) (N : Nat) :
    ∃ ms w1, bindN dm o N w = .ok (ms, w1) ∧ ms.length = N ∧
      w1.refcnt o = w.refcnt o + N ∧ w1.heap.length = w.heap.length ∧
      (∀ k, k ≤ N → ∃ wk, releaseAll (ms.take k) w1 = .ok wk ∧
        wk.refcnt o = w.refcnt o + N - k) ∧
      (∃ w2, releaseAll ms w1 = .ok w2 ∧ w2.refcnt o = w.refcnt o ∧
        w2.heap.length = w.heap.length) := by
  obtain ⟨rc, hheap, hrc⟩ := arr_eq_some w o a h.live
  obtain ⟨ms, w1, hb, hw1, hlen, hmu, hrec, _⟩ := bindN_spec dm o a N w rc h hheap
  have hmslen : ms.length = N := by
    have := congrArg List.length hmu
    simpa using this
  have hnd : (ms.map Mat.u).Nodup := by
    rw [hmu]
    apply List.Nodup.map _ (List.nodup_range N)
    intro i j hij
    simp only [Option.some.injEq] at hij
    omega
  have hmem : ∀ m ∈ ms, ∃ r x, m.u = some r ∧ w1.records[r]? = some (some x) ∧
      x.userdata = some o := by
    intro m hm
    have hin : m.u ∈ ms.map Mat.u := List.mem_map_of_mem Mat.u hm
    rw [hmu, List.mem_map] at hin
    obtain ⟨j, hj, hju⟩ := hin
    obtain ⟨x, hx, hxu⟩ := hrec j (List.mem_range.mp hj)
    exact ⟨_, x, hju.symm, hx, hxu⟩
  have hpre : ∀ k, k ≤ N → ∃ wk, releaseAll (ms.take k) w1 = .ok wk ∧
      wk.heap[o]? = some ⟨rc + N - k, .ndarray a⟩ ∧ wk.heap.length = w.heap.length := by
    intro k hk
    have hl : (ms.take k).length = k := by
      rw [List.length_take, hmslen]
      omega
    obtain ⟨wk, hwk, hwkh, hwkl⟩ := releaseAll_spec o (.ndarray a) (ms.take k) w1 (rc + N) hw1
      (by rw [hl]; omega)
      (by rw [List.map_take]; exact hnd.sublist (List.take_sublist k _))
      (fun m hm => hmem m (List.mem_of_mem_take hm))
    rw [hl] at hwkh
    exact ⟨wk, hwk, hwkh, by rw [hwkl, hlen]⟩
  refine ⟨ms, w1, hb, hmslen, ?_, hlen, ?_, ?_⟩
  · rw [refcnt_of_heap w1 o _ hw1, refcnt_of_heap w o _ hheap]
  · intro k hk
    obtain ⟨wk, hwk, hwkh, _⟩ := hpre k hk
    exact ⟨wk, hwk, by rw [refcnt_of_heap wk o _ hwkh, refcnt_of_heap w o _ hheap]⟩
  · obtain ⟨w2, hw2, hw2h, hw2l⟩ := hpre N (le_refl N)
    rw [← hmslen, List.take_length] at hw2
    refine ⟨w2, hw2, ?_, hw2l⟩
    rw [refcnt_of_heap w2 o _ hw2h, refcnt_of_heap w o _ hheap]
    simp

/-! ## Channel folding -/

theorem toMatArgs_descriptor (dm : DataModel) (o : Nat) (a : PyArrayObject) (w : World)
    (o1 : Nat) (d : MatArgs) (w1 : World) (h : toMatArgs dm o a w = .ok (o1, d, w1)) :
    ∃ a1, d = toMatDescriptor dm a a1 (toMatType dm a.typenum).type := by
  unfold toMatArgs at h
  split_ifs at h with hwf
  simp only at h
  split at h
  · cases h
  · rename_i o2 a1 w3 _
    split_ifs at h
    simp only [Except.ok.injEq, Prod.mk.injEq] at h
    exact ⟨a1, h.2.1.symm⟩

theorem folded_descriptor (dm : DataModel) (a a1 : PyArrayObject) (type : Int)
    (hrank : a.dims.length = 3) (hc1 : 1 ≤ a.dims.getD 2 0) (hc2 : a.dims.getD 2 0 ≤ CV_CN_MAX)
    (hext : ∀ x ∈ a.dims, 0 ≤ x ∧ x < 2147483648) (ht0 : 0 ≤ type) (ht1 : type < 8) :
    (toMatDescriptor dm a a1 type).ndims = 2 ∧
      (toMatDescriptor dm a a1 type).size.take 2 = a.dims.take 2 ∧
      CV_MAT_CN (toMatDescriptor dm a a1 type).type = a.dims.getD 2 0 ∧
      CV_MAT_DEPTH (toMatDescriptor dm a a1 type).type = type := by
  have hm : ismultichannel a = true := by
    simp only [ismultichannel, decide_eq_true_eq]
    exact ⟨hrank, hc2⟩
  unfold toMatDescriptor
  simp only [hm, if_true, hrank, OfNat.ofNat_ne_zero, if_false,
    toInt32_nonneg_of_mem a.dims hext]
  obtain ⟨k, hk⟩ := Int.eq_ofNat_of_zero_le (by omega : 0 ≤ a.dims.getD 2 0 - 1)
  obtain ⟨t, ht⟩ := Int.eq_ofNat_of_zero_le ht0
  have hk512 : k < 512 := by
    have : a.dims.getD 2 0 ≤ 512 := hc2
    omega
  have ht8 : t < 8 := by omega
  have hc : a.dims.getD 2 0 = (k : Int) + 1 := by omega
  have hb := folded_type_bits t k ht8 hk512
  rw [hc, ht]
  exact ⟨trivial, trivial, hb.1, hb.2⟩

theorem toMatType_depth_range (dm : DataModel) (t : Int) (h : (toMatType dm t).failed = false) :
    0 ≤ (toMatType dm t).type ∧ (toMatType dm t).type < 8 := by
  rcases toMatDepth_cases t with h1 | h1
  · rcases h1 with h1 | h1 | h1 | h1 | h1 | h1 | h1 | h1 <;> subst h1 <;> cases dm <;> decide
  · unfold toMatType at h ⊢
    simp only [h1] at h ⊢
    split_ifs at h ⊢ <;> simp_all [CV_32S]

/-! ## The copy and cast fallback -/

theorem cStridesFrom_length (es : Int) (dims : List Int) :
    (cStridesFrom es dims).1.length = dims.length := by
  induction dims with
  | nil => rfl
  | cons d ds ih => simp [cStridesFrom, ih]

theorem cStrides_length (es : Nat) (dims : List Int) : (cStrides es dims).length = dims.length :=
  cStridesFrom_length es dims

theorem newArray_ok (dm : DataModel) (dims : List Int) (t : Int) (w : World) (es : Nat)
    (hes : npyElsize dm t = some es) (hroom : w.heap.length < w.heapLimit)
    (hrank : dims.length ≤ NPY_MAXDIMS) (hext : ∀ d ∈ dims, 0 ≤ d) :
    newArray dm dims t w =
      (some w.heap.length,
        { w with
          heap := w.heap ++ [⟨1, .ndarray ⟨t, dims, cStrides es dims, w.nextData + 1⟩⟩],
          nextData := w.nextData + 1 }) := by
  have hc : ¬ (w.heapLimit ≤ w.heap.length ∨ NPY_MAXDIMS < dims.length ∨
      dims.any (fun d => decide (d < 0)) = true) := by
    rw [any_neg_false dims hext]
    simp
    omega
  unfold newArray
  simp only [hes, hc, if_false]

theorem arr_append_new (w : World) (x : PyArrayObject)
    (rs : List (Option UMatData)) (e : Bool) (n l d c : Nat) :
    ({ heap := w.heap ++ [⟨1, .ndarray x⟩], records := rs, pyErr := e, pyNone := n,
       heapLimit := l, nextData := d, copies := c } : World).arr (some w.heap.length) =
      some x := by
  simp [World.arr, World.obj]

theorem elsize_of_supported (dm : DataModel) (t : Int)
    (h : (toMatType dm t).failed = false) (hc : (toMatType dm t).needcast = false) :
    ∃ es, npyElsize dm t = some es := by
  rcases toMatDepth_cases t with h1 | h1
  · rcases h1 with h1 | h1 | h1 | h1 | h1 | h1 | h1 | h1 <;> subst h1 <;>
      exact ⟨_, rfl⟩
  · unfold toMatType at h hc
    simp only [h1] at h hc
    split_ifs at h hc
    simp_all

/-- On a live array of supported type and rank with known extents and room in
the foreign heap when a copy is needed, lines 191-283 of `toMat` return without reporting a failure:
with the array itself when no copy is needed, and with a new C-contiguous
array of the same extents otherwise. -/
theorem toMatArgs_total (dm : DataModel) (w : World) (o : Nat) (a : PyArrayObject)
    (hlive : w.arr (some o) = some a) (hwf : a.strides.length = a.dims.length)
    (hrank : a.dims.length < CV_MAX_DIM) (hext : ∀ d ∈ a.dims, 0 ≤ d)
    (hroom : needcopyFlag dm a (CV_ELEM_SIZE1 dm (toMatType dm a.typenum).type)
      (toMatType dm a.typenum).needcopy = false ∨ w.heap.length < w.heapLimit)
    (hsup : (toMatType dm a.typenum).failed = false) :
    ∃ o1 a1 w1,
      toMatArgs dm o a w =
        .ok (o1, toMatDescriptor dm a a1 (toMatType dm a.typenum).type, w1) ∧
      w1.arr (some o1) = some a1 ∧ a1.dims = a.dims ∧ w1.pyErr = w.pyErr ∧
      (needcopyFlag dm a (CV_ELEM_SIZE1 dm (toMatType dm a.typenum).type)
          (toMatType dm a.typenum).needcopy = false → o1 = o ∧ a1 = a ∧ w1 = w) ∧
      (needcopyFlag dm a (CV_ELEM_SIZE1 dm (toMatType dm a.typenum).type)
          (toMatType dm a.typenum).needcopy = true →
        ∃ es, npyElsize dm a1.typenum = some es ∧ a1.strides = cStrides es a.dims ∧
          ((toMatType dm a.typenum).needcast = true → a1.typenum = NPY_INT) ∧
          ((toMatType dm a.typenum).needcast = false → a1.typenum = a.typenum)) := by
  obtain ⟨rc, hheap, hrc⟩ := arr_eq_some w o a hlive
  have hmax : a.dims.length < 32 := hrank
  have hmax2 : a.dims.length ≤ NPY_MAXDIMS := by simp only [NPY_MAXDIMS]; omega
  have h1 : ¬ (CV_MAX_DIM ≤ a.dims.length) := by simp only [CV_MAX_DIM]; omega
  unfold toMatArgs
  simp only [hwf, ne_eq, not_true_eq_false, if_false, hsup, Bool.false_eq_true, h1]
  cases hnc : needcopyFlag dm a (CV_ELEM_SIZE1 dm (toMatType dm a.typenum).type)
      (toMatType dm a.typenum).needcopy with
  | false =>
    have h2 : ¬ (CV_MAX_DIM + 1 < a.dims.length ∨ a.dims.length < a.dims.length) := by
      simp only [CV_MAX_DIM]; omega
    refine ⟨o, a, w, ?_, hlive, rfl, rfl, fun _ => ⟨rfl, rfl, rfl⟩, ?_⟩
    · simp only [toMatCopy, Bool.false_eq_true, if_false, hwf, h2]
    · intro h; cases h
  | true =>
    have hroom : w.heap.length < w.heapLimit := by
      rcases hroom with h | h
      · rw [hnc] at h; cases h
      · exact h
    have h2 : ∀ es : Nat, ¬ (CV_MAX_DIM + 1 < a.dims.length ∨
        (cStrides es a.dims).length < a.dims.length) := by
      intro es
      rw [cStrides_length]
      simp only [CV_MAX_DIM]; omega
    cases hcast : (toMatType dm a.typenum).needcast with
    | true =>
      have hnt : (toMatType dm a.typenum).new_typenum = NPY_INT := by
        unfold toMatType at hcast ⊢
        simp only at hcast ⊢
        split_ifs at hcast ⊢
        simp_all
      have hna := newArray_ok dm a.dims NPY_INT w 4 (by cases dm <;> rfl) hroom hmax2 hext
      refine ⟨w.heap.length, ⟨NPY_INT, a.dims, cStrides 4 a.dims, w.nextData + 1⟩,
        { w with
          heap := w.heap ++ [⟨1, .ndarray ⟨NPY_INT, a.dims, cStrides 4 a.dims, w.nextData + 1⟩⟩],
          nextData := w.nextData + 1, copies := w.copies + 1 }, ?_,
        ?_, rfl, ?_, ?_, ?_⟩
      rotate_left
      · exact arr_append_new w _ _ _ _ _ _ _
      · rfl
      · intro h; cases h
      · intro _
        exact ⟨4, by cases dm <;> rfl, rfl, ⟨fun _ => rfl, fun h => absurd h (by decide)⟩⟩
      · simp only [toMatCopy, if_true, hcast, hnt, PyArray_Cast, hna, arr_append_new, h2,
          if_false]
    | false =>
      obtain ⟨es, hes⟩ := elsize_of_supported dm a.typenum hsup hcast
      by_cases hcontig : a.strides = cStrides es a.dims
      · have hh1 : (w.heap.set o ⟨rc + 1, .ndarray a⟩)[o]? = some ⟨rc + 1, .ndarray a⟩ :=
          getElem?_set_same _ _ _ _ hheap
        refine ⟨o, a, { w with heap := w.heap.set o ⟨rc + 1, .ndarray a⟩ }, ?_,
          arr_of_heap _ o (rc + 1) a hh1 (by omega), rfl, rfl, ?_, ?_⟩
        rotate_left
        · intro h; cases h
        · intro _
          exact ⟨es, hes, hcontig, ⟨fun h => absurd h (by decide), fun _ => rfl⟩⟩
        · have h3 : ¬ (CV_MAX_DIM + 1 < a.dims.length ∨ a.strides.length < a.dims.length) := by
            rw [hwf]; simp only [CV_MAX_DIM]; omega
          have harr1 : ({ w with heap := w.heap.set o ⟨rc + 1, .ndarray a⟩ } : World).arr
              (some o) = some a := arr_of_heap _ o (rc + 1) a hh1 (by omega)
          simp only [toMatCopy, if_true, hcast, Bool.false_eq_true, if_false,
            PyArray_GETCONTIGUOUS, hes, ← hcontig, World.setRefcnt, hheap, World.refcnt,
            harr1, h3]
      · have hna := newArray_ok dm a.dims a.typenum w es hes hroom hmax2 hext
        refine ⟨w.heap.length, ⟨a.typenum, a.dims, cStrides es a.dims, w.nextData + 1⟩,
          { w with
            heap := w.heap ++
              [⟨1, .ndarray ⟨a.typenum, a.dims, cStrides es a.dims, w.nextData + 1⟩⟩],
            nextData := w.nextData + 1, copies := w.copies + 1 }, ?_,
          ?_, rfl, ?_, ?_, ?_⟩
        rotate_left
        · exact arr_append_new w _ _ _ _ _ _ _
        · rfl
        · intro h; cases h
        · intro _
          exact ⟨es, hes, rfl, ⟨fun h => absurd h (by decide), fun _ => rfl⟩⟩
        · simp only [toMatCopy, if_true, hcast, Bool.false_eq_true, if_false,
            PyArray_GETCONTIGUOUS, hes, hcontig, hna, arr_append_new, h2]

theorem folded_descriptor_shape (dm : DataModel) (a a1 : PyArrayObject) (type : Int)
    (hrank : a.dims.length = 3) (hc2 : a.dims.getD 2 0 ≤ CV_CN_MAX)
    (hext : ∀ x ∈ a.dims, 0 ≤ x ∧ x < 2147483648) :
    (toMatDescriptor dm a a1 type).ndims = 2 ∧
      (toMatDescriptor dm a a1 type).size.take 2 = a.dims.take 2 ∧
      (toMatDescriptor dm a a1 type).type = intOr type (CV_MAKETYPE 0 (a.dims.getD 2 0)) := by
  have hm : ismultichannel a = true := by
    simp only [ismultichannel, decide_eq_true_eq]
    exact ⟨hrank, hc2⟩
  unfold toMatDescriptor
  simp only [hm, if_true, hrank, OfNat.ofNat_ne_zero, if_false,
    toInt32_nonneg_of_mem a.dims hext]
  exact ⟨trivial, trivial, trivial⟩

theorem unfolded_descriptor (dm : DataModel) (a a1 : PyArrayObject) (type : Int)
    (hm : ¬ (a.dims.length = 3 ∧ a.dims.getD 2 0 ≤ CV_CN_MAX)) (hrank0 : a.dims.length ≠ 0)
    (hext : ∀ x ∈ a.dims, 0 ≤ x ∧ x < 2147483648) :
    (toMatDescriptor dm a a1 type).ndims = a.dims.length ∧
      (toMatDescriptor dm a a1 type).size = a.dims ∧
      (toMatDescriptor dm a a1 type).type = type := by
  have hm2 : ismultichannel a = false := by
    simp only [ismultichannel, decide_eq_false_iff_not]
    exact hm
  unfold toMatDescriptor
  simp only [hm2, Bool.false_eq_true, if_false, hrank0, toInt32_nonneg_of_mem a.dims hext]
  exact ⟨trivial, trivial, trivial⟩

theorem descriptor_data_step (dm : DataModel) (a a1 : PyArrayObject) (type : Int)
    (hlen : a1.strides.length = a.dims.length) :
    (toMatDescriptor dm a a1 type).data = a1.data ∧
      (a.dims.length ≠ 0 →
        (toMatDescriptor dm a a1 type).step = a1.strides.map (toSizeT dm)) := by
  have htake : a1.strides.take a.dims.length = a1.strides :=
    List.take_of_length_le (le_of_eq hlen)
  unfold toMatDescriptor
  simp only [htake]
  constructor
  · split_ifs <;> rfl
  · intro h0
    simp only [h0, if_false]
    split_ifs <;> rfl

theorem single_channel_depth (t : Int) (h0 : 0 ≤ t) (h1 : t < 8) : CV_MAT_CN t = 1 := by
  interval_cases t <;> decide

/-- C5 (amended): for a live, well-formed array of mapped element type, rank
below `CV_MAX_DIM` and extents that fit a C `int` (with room in the foreign
heap when a copy is needed) `toMat` folds the trailing axis exactly when the
rank is 3 and the trailing extent `c` is at most `CV_CN_MAX`, whatever the
strides: then the descriptor has 2 axes, its extents are the two leading
extents, and its type is the mapped depth or-ed with `CV_MAKETYPE(0, c)`,
which for `1 <= c` has channel count `c` and the mapped depth. Every other
array of non-zero rank keeps all axes and extents, with the mapped depth as
type and channel count 1. The data pointer and the steps of the descriptor
are those of the array finally bound: the input itself when `needcopy` is not
set; when the stride condition `s[1] = e * c` of a foldable array fails,
`needcopy` is set and that array is the C-contiguous one returned by
`PyArray_Cast` or `PyArray_GETCONTIGUOUS`. -/
theorem channel_folding_rank3 (dm : DataModel) (w : World) (o : Nat) (a : PyArrayObject)
    (hlive : w.arr (some o) = some a) (hwf : a.strides.length = a.dims.length)
    (hrank : a.dims.length < CV_MAX_DIM) (hext : ∀ x ∈ a.dims, 0 ≤ x ∧ x < 2147483648)
    (hsup : (toMatType dm a.typenum).failed = false)
    (hroom : needcopyFlag dm a (CV_ELEM_SIZE1 dm (toMatType dm a.typenum).type)
      (toMatType dm a.typenum).needcopy = false ∨ w.heap.length < w.heapLimit) :
    ∃ o1 a1 d w1, toMatArgs dm o a w = .ok (o1, d, w1) ∧
      w1.arr (some o1) = some a1 ∧ d.data = a1.data ∧
      (a.dims.length ≠ 0 → d.step = a1.strides.map (toSizeT dm)) ∧
      (a.dims.length = 3 ∧ a.dims.getD 2 0 ≤ CV_CN_MAX →
        d.ndims = 2 ∧ d.size.take 2 = a.dims.take 2 ∧
          d.type = intOr (toMatType dm a.typenum).type (CV_MAKETYPE 0 (a.dims.getD 2 0)) ∧
          (1 ≤ a.dims.getD 2 0 →
            CV_MAT_CN d.type = a.dims.getD 2 0 ∧
              CV_MAT_DEPTH d.type = (toMatType dm a.typenum).type)) ∧
      (¬ (a.dims.length = 3 ∧ a.dims.getD 2 0 ≤ CV_CN_MAX) → a.dims.length ≠ 0 →
        d.ndims = a.dims.length ∧ d.size = a.dims ∧ d.type = (toMatType dm a.typenum).type ∧
          CV_MAT_CN d.type = 1) ∧
      (needcopyFlag dm a (CV_ELEM_SIZE1 dm (toMatType dm a.typenum).type)
          (toMatType dm a.typenum).needcopy = false → o1 = o ∧ a1 = a ∧ w1 = w) ∧
      (a.dims.length = 3 ∧ a.dims.getD 2 0 ≤ CV_CN_MAX →
        a.strides.getD 1 0 ≠
          (CV_ELEM_SIZE1 dm (toMatType dm a.typenum).type : Int) * a.dims.getD 2 0 →
        needcopyFlag dm a (CV_ELEM_SIZE1 dm (toMatType dm a.typenum).type)
            (toMatType dm a.typenum).needcopy = true ∧
          ∃ es, npyElsize dm a1.typenum = some es ∧ a1.strides = cStrides es a.dims) := by
  obtain ⟨o1, a1, w1, hargs, harr, hdims, _, hno, hcopy⟩ := toMatArgs_total dm w o a hlive hwf
    hrank (fun d hd => (hext d hd).1) hroom hsup
  obtain ⟨ht0, ht1⟩ := toMatType_depth_range dm a.typenum hsup
  have hlen : a1.strides.length = a.dims.length := by
    cases hnc : needcopyFlag dm a (CV_ELEM_SIZE1 dm (toMatType dm a.typenum).type)
        (toMatType dm a.typenum).needcopy with
    | false =>
      obtain ⟨_, ha, _⟩ := hno hnc
      rw [ha]
      exact hwf
    | true =>
      obtain ⟨es, _, hs, _⟩ := hcopy hnc
      rw [hs, cStrides_length]
  obtain ⟨hd1, hd2⟩ := descriptor_data_step dm a a1 (toMatType dm a.typenum).type hlen
  refine ⟨o1, a1, _, w1, hargs, harr, hd1, hd2, ?_, ?_, hno, ?_⟩
  · intro hm
    obtain ⟨f1, f2, f3⟩ := folded_descriptor_shape dm a a1 (toMatType dm a.typenum).type
      hm.1 hm.2 hext
    refine ⟨f1, f2, f3, ?_⟩
    intro hc1
    obtain ⟨_, _, f4, f5⟩ := folded_descriptor dm a a1 _ hm.1 hc1 hm.2 hext ht0 ht1
    exact ⟨f4, f5⟩
  · intro hm h0
    obtain ⟨g1, g2, g3⟩ := unfolded_descriptor dm a a1 (toMatType dm a.typenum).type hm h0 hext
    refine ⟨g1, g2, g3, ?_⟩
    rw [g3]
    exact single_channel_depth _ ht0 ht1
  · intro hm hstride
    have hnc : needcopyFlag dm a (CV_ELEM_SIZE1 dm (toMatType dm a.typenum).type)
        (toMatType dm a.typenum).needcopy = true :=
      (needcopyFlag_true_iff dm a).2 (Or.inr (Or.inr (Or.inr ⟨hm, hstride⟩)))
    obtain ⟨es, he, hs, _⟩ := hcopy hnc
    exact ⟨hnc, es, he, hs⟩

/-- C5 (counterexample): a C-contiguous `4 x 3` array of `uint8` has a trailing
axis of extent 3 whose next-outer stride is `3 * 1`, yet its descriptor keeps
both axes and has channel count 1; and the padded `2 x 3 x 3` array, whose
stride condition fails, is copied and then folded all the same (2 axes,
channel count 3) instead of keeping its trailing axis. -/
theorem channel_folding_counterexample :
    u8Rank2.dims.getD 1 0 = 3 ∧
      u8Rank2.strides.getD 0 0 = (CV_ELEM_SIZE1 .LP64 CV_8U : Int) * 3 ∧
      toMatArgs .LP64 1 u8Rank2 (worldWith u8Rank2) =
        .ok (1, { ndims := 2, size := [4, 3], type := CV_8U, data := 64, step := [3, 1] },
          worldWith u8Rank2) ∧
      CV_MAT_CN CV_8U = 1 ∧
      (∃ w1, toMatArgs .LP64 1 u8Padded (worldWith u8Padded) =
        .ok (2, { ndims := 2, size := [2, 3, 3], type := 16, data := 1001, step := [9, 3, 1] },
          w1)) ∧
      CV_MAT_CN 16 = 3 ∧ CV_MAT_DEPTH 16 = CV_8U := by
  refine ⟨by decide, by decide, by rfl, by decide, ⟨_, by rfl⟩, by decide, by decide⟩

/-! ## The materializing allocation -/

theorem SimpleNew_cases (dm : DataModel) (nd : Nat) (dims : List Int) (t : Int) (w : World)
    (h : (PyArray_SimpleNew dm nd dims t w).1 ≠ none) :
    ∃ es, PyArray_SimpleNew dm nd dims t w =
      (some w.heap.length,
        { w with
          heap := w.heap ++
            [⟨1, .ndarray ⟨t, dims.take nd, cStrides es (dims.take nd), w.nextData + 1⟩⟩],
          nextData := w.nextData + 1 }) := by
  unfold PyArray_SimpleNew newArray at h ⊢
  cases hes : npyElsize dm t with
  | none => simp [hes] at h
  | some es =>
    simp only [hes] at h ⊢
    split_ifs at h ⊢ with hc
    · simp at h
    · exact ⟨es, rfl⟩

/-- The materializing allocation when the foreign allocator returns an object. -/
theorem allocate_ok (dm : DataModel) (dims0 : Nat) (sizes : List Int) (type : Int)
    (step : List Nat) (w : World) (h1 : 1 ≤ dims0) (h2 : sizes.length = dims0)
    (h3 : dims0 ≤ step.length)
    (hnew : (PyArray_SimpleNew dm (materializeRequest dm dims0 sizes type).1
      (materializeRequest dm dims0 sizes type).2.1
      (materializeRequest dm dims0 sizes type).2.2 w).1 ≠ none) :
    ∃ x step1 u, NumpyAllocator.allocate dm dims0 sizes type 0 step w =
        .ok (w.records.length, step1,
          { w with heap := w.heap ++ [⟨1, .ndarray x⟩], nextData := w.nextData + 1,
                   records := w.records ++ [some u] }) ∧
      u.userdata = some w.heap.length ∧ u.refcount = 0 ∧ u.currAllocator = .numpy ∧
      u.data = x.data ∧ x.data ≠ 0 ∧
      x.dims = (materializeRequest dm dims0 sizes type).2.1.take
        (materializeRequest dm dims0 sizes type).1 ∧
      x.typenum = (materializeRequest dm dims0 sizes type).2.2 := by
  obtain ⟨es, hes⟩ := SimpleNew_cases dm _ _ _ w hnew
  have hreqlen : dims0 ≤ ((materializeRequest dm dims0 sizes type).2.1.take
      (materializeRequest dm dims0 sizes type).1).length := by
    unfold materializeRequest
    simp only
    split_ifs <;> simp [h2]
  unfold NumpyAllocator.allocate
  have hc : ¬ (sizes.length < dims0) := by omega
  simp only [ne_eq, not_true_eq_false, if_false, hc, hes]
  unfold NumpyAllocator.allocate_object
  rw [arr_append_new]
  have hc2 : ¬ (dims0 = 0 ∨
      (cStrides es ((materializeRequest dm dims0 sizes type).2.1.take
        (materializeRequest dm dims0 sizes type).1)).length + 1 < dims0 ∨
      sizes.length = 0 ∨ step.length < dims0) := by
    rw [cStrides_length]
    omega
  simp only [hc2, if_false, newRecord]
  exact ⟨_, _, _, rfl, rfl, rfl, rfl, rfl, by simp, rfl, rfl⟩

/-! ## The request of the materializing allocation -/

theorem allocTypenum_roundtrip (dm : DataModel) (d : Int) (hd : d ∈ sevenDepths) :
    toMatType dm (allocTypenum dm d) =
      { type := d, new_typenum := allocTypenum dm d, needcopy := false, needcast := false,
        failed := false } := by
  simp only [sevenDepths, List.mem_cons, List.mem_singleton, List.not_mem_nil, or_false] at hd
  rcases hd with h | h | h | h | h | h | h <;> subst h <;> cases dm <;> decide

/-- C9: for a shape `sizes` and a type whose depth is one of the seven depths
`CV_8U .. CV_64F`, the materializing `NumpyAllocator::allocate` called with no
data asks `PyArray_SimpleNew` for the shape `sizes` followed by the channel
count `cn` when `cn > 1` and for exactly `sizes` when `cn = 1`, with the type
number that the table of `toMat` maps back to the same depth without cast
(and that table followed by this one is the identity on the seven type
numbers); the call throws when the foreign allocator returns no object, and
otherwise returns a storage record bound to the new object, which has the
requested shape and type number and reference count 1. -/
theorem materialize_request_spec (dm : DataModel) (sizes : List Int) (type : Int)
    (hd : CV_MAT_DEPTH type ∈ sevenDepths) :
    (materializeRequest dm sizes.length sizes type).2.1 =
        (if CV_MAT_CN type > 1 then sizes ++ [CV_MAT_CN type] else sizes) ∧
      (materializeRequest dm sizes.length sizes type).1 =
        (if CV_MAT_CN type > 1 then sizes.length + 1 else sizes.length) ∧
      (materializeRequest dm sizes.length sizes type).2.2 = allocTypenum dm (CV_MAT_DEPTH type) ∧
      toMatType dm (allocTypenum dm (CV_MAT_DEPTH type)) =
        { type := CV_MAT_DEPTH type, new_typenum := allocTypenum dm (CV_MAT_DEPTH type),
          needcopy := false, needcast := false, failed := false } ∧
      (∀ d ∈ sevenDepths, toMatDepth (allocTypenum dm d) = d) ∧
      (∀ t ∈ sevenDepths.map (allocTypenum dm), allocTypenum dm (toMatDepth t) = t) ∧
      (∀ (step : List Nat) (w : World),
        (PyArray_SimpleNew dm (materializeRequest dm sizes.length sizes type).1
            (materializeRequest dm sizes.length sizes type).2.1
            (materializeRequest dm sizes.length sizes type).2.2 w).1 = none →
        NumpyAllocator.allocate dm sizes.length sizes type 0 step w =
          .error (.cvError (PyArray_SimpleNew dm (materializeRequest dm sizes.length sizes type).1
            (materializeRequest dm sizes.length sizes type).2.1
            (materializeRequest dm sizes.length sizes type).2.2 w).2)) ∧
      (∀ (step : List Nat) (w : World), 1 ≤ sizes.length → sizes.length ≤ step.length →
        (PyArray_SimpleNew dm (materializeRequest dm sizes.length sizes type).1
            (materializeRequest dm sizes.length sizes type).2.1
            (materializeRequest dm sizes.length sizes type).2.2 w).1 ≠ none →
        ∃ x step1 u w1,
          NumpyAllocator.allocate dm sizes.length sizes type 0 step w =
            .ok (w.records.length, step1, w1) ∧
          w1.record (some w.records.length) = some u ∧ u.userdata = some w.heap.length ∧
          w1.arr (some w.heap.length) = some x ∧ w1.refcnt w.heap.length = 1 ∧
          x.dims = (if CV_MAT_CN type > 1 then sizes ++ [CV_MAT_CN type] else sizes) ∧
          x.typenum = allocTypenum dm (CV_MAT_DEPTH type)) := by
  have hshape : (materializeRequest dm sizes.length sizes type).2.1.take
      (materializeRequest dm sizes.length sizes type).1 =
      (if CV_MAT_CN type > 1 then sizes ++ [CV_MAT_CN type] else sizes) := by
    unfold materializeRequest
    simp only [List.take_length]
    split_ifs
    · exact List.take_of_length_le (by simp)
    · exact List.take_of_length_le (le_refl _)
  have htype : (materializeRequest dm sizes.length sizes type).2.2 =
      allocTypenum dm (CV_MAT_DEPTH type) := by
    unfold materializeRequest
    simp only
    split_ifs <;> rfl
  refine ⟨?_, ?_, htype, allocTypenum_roundtrip dm _ hd, ?_, ?_, ?_, ?_⟩
  · unfold materializeRequest
    simp only [List.take_length]
    split_ifs <;> rfl
  · unfold materializeRequest
    simp only
    split_ifs <;> rfl
  · cases dm <;> decide
  · cases dm <;> decide
  · intro step w hnone
    unfold NumpyAllocator.allocate
    simp only [ne_eq, not_true_eq_false, if_false, lt_self_iff_false]
    generalize PyArray_SimpleNew dm (materializeRequest dm sizes.length sizes type).1
      (materializeRequest dm sizes.length sizes type).2.1
      (materializeRequest dm sizes.length sizes type).2.2 w = r at hnone ⊢
    obtain ⟨o, w1⟩ := r
    simp only at hnone
    subst hnone
    rfl
  · intro step w h1 h2 hnew
    obtain ⟨x, step1, u, hal, hu1, _, _, _, _, hx1, hx2⟩ :=
      allocate_ok dm sizes.length sizes type step w h1 rfl h2 hnew
    refine ⟨x, step1, u, _, hal, record_mk_last _ _ _ _ _ _ _ _, hu1,
      arr_append_new w x _ _ _ _ _ _, ?_, ?_, ?_⟩
    · simp [World.refcnt]
    · rw [hx1, hshape]
    · rw [hx2, htype]

/-! ## `toNDArray` -/

/-- C1 (counterexample): the C-contiguous vector of `2^31` items of `uint8` is
live and well-formed, has non-null data, a mapped type and rank 1, and the
analyzer asks for neither copy nor cast; line 261 converts its extent to the C `int` `-2^31`, the
matrix constructor throws, and `toNDArray(toMat(o))` returns no object and
leaves the world as it was. -/
theorem round_trip_huge_extent_counterexample :
    (worldWith u8Huge).arr (some 1) = some u8Huge ∧ u8Huge.data ≠ 0 ∧
      (toMatType .LP64 u8Huge.typenum).failed = false ∧
      needcopyFlag .LP64 u8Huge (CV_ELEM_SIZE1 .LP64 (toMatType .LP64 u8Huge.typenum).type)
        (toMatType .LP64 u8Huge.typenum).needcopy = false ∧
      u8Huge.strides.length = u8Huge.dims.length ∧ u8Huge.dims.length < CV_MAX_DIM ∧
      toInt32 2147483648 = -2147483648 ∧
      roundTrip .LP64 (some 1) (worldWith u8Huge) = .error (.cvError (worldWith u8Huge)) :=
  ⟨by decide, by decide, by decide, by decide, by decide, by decide, by decide, by rfl⟩

/-- C2 (counterexample): the same vector of `2^31` items is on the zero-copy
path (live, non-null data, mapped type, rank 1, neither copy nor cast), yet a
single `toMat(o)` throws in the matrix constructor and the reference count of
`o` stays 1: it is not incremented. -/
theorem bind_huge_extent_counterexample :
    (worldWith u8Huge).arr (some 1) = some u8Huge ∧ u8Huge.data ≠ 0 ∧
      u8Huge.strides.length = u8Huge.dims.length ∧
      (toMatType .LP64 u8Huge.typenum).failed = false ∧
      u8Huge.dims.length < CV_MAX_DIM ∧
      needcopyFlag .LP64 u8Huge (CV_ELEM_SIZE1 .LP64 (toMatType .LP64 u8Huge.typenum).type)
        (toMatType .LP64 u8Huge.typenum).needcopy = false ∧
      NDArrayConverter.toMat .LP64 (some 1) (worldWith u8Huge) =
        .error (.cvError (worldWith u8Huge)) ∧
      bindN .LP64 1 1 (worldWith u8Huge) = .error (.cvError (worldWith u8Huge)) ∧
      (worldWith u8Huge).refcnt 1 = 1 :=
  ⟨by decide, by decide, by decide, by decide, by decide, by decide, by rfl, by rfl, by rfl⟩

/-- C6 (failing input): with 64-bit `long`, `toMat` accepts a C-contiguous
vector of three `int64` items without reporting a failure and hands the matrix
constructor a descriptor of type `CV_32S`, whose elements have 4 bytes, with
innermost step 8. -/
theorem long_descriptor_not_contiguous :
    ∃ o1 w1 m w2,
      toMatArgs .LP64 1 i64Vector (worldWith i64Vector) =
        .ok (o1, { ndims := 1, size := [3], type := CV_32S, data := 64, step := [8] }, w1) ∧
      NDArrayConverter.toMat .LP64 (some 1) (worldWith i64Vector) = .ok (m, w2) ∧
      w2.pyErr = false ∧ CV_ELEM_SIZE .LP64 CV_32S = 4 ∧ m.flags = CV_32S ∧ m.data = 64 :=
  ⟨_, _, _, _, by rfl, by rfl, by rfl, by decide, by rfl, by rfl⟩

/-- C7 (failing inputs): for an array of rank 32 (`CV_MAX_DIM`) and for a
vector of `long long` (a type number without mapping and without cast path
where `long` has 64 bits) `toMat` reports a failure (the error indicator is
set) and all the same returns a matrix over the data of the foreign object,
with a new storage record, and leaves the reference count of the object, 1
before the call, at 2. For an object that is not an array (here `Py_None`)
the behaviour after the report is undefined. -/
theorem failed_conversion_still_binds :
    (∃ m w1, NDArrayConverter.toMat .LP64 (some 1) (worldWith u8Rank32) = .ok (m, w1) ∧
        (worldWith u8Rank32).pyErr = false ∧ w1.pyErr = true ∧ m.data = 64 ∧ m.u = some 0 ∧
        (worldWith u8Rank32).records.length = 0 ∧ w1.records.length = 1 ∧
        (worldWith u8Rank32).refcnt 1 = 1 ∧ w1.refcnt 1 = 2) ∧
      (toMatType .LP64 NPY_LONGLONG).failed = true ∧
      (∃ m w1, NDArrayConverter.toMat .LP64 (some 1) (worldWith longlongVector) = .ok (m, w1) ∧
        (worldWith longlongVector).pyErr = false ∧ w1.pyErr = true ∧ m.data = 64 ∧
        m.u = some 0 ∧
        (worldWith longlongVector).records.length = 0 ∧ w1.records.length = 1 ∧
        (worldWith longlongVector).refcnt 1 = 1 ∧ w1.refcnt 1 = 2) ∧
      NDArrayConverter.toMat .LP64 (some 0) (worldWith u8Matrix) = .error .undefined :=
  ⟨⟨_, _, by rfl, by rfl, by rfl, by rfl, by rfl, by rfl, by rfl, by rfl, by rfl⟩,
    by decide,
    ⟨_, _, by rfl, by rfl, by rfl, by rfl, by rfl, by rfl, by rfl, by rfl, by rfl⟩,
    by rfl⟩

/-- C10 (failing input): for the transpose view `toMat` takes the copy
fallback; the contiguous copy is the new object 2, owned by the storage record
of the matrix, with reference count 2; after the one release of that record
the count of the temporary is 1, not 0, and no storage record is left to
release it. The count of the input is 1 throughout. -/
theorem copy_path_leaks_temporary :
    ∃ m w1 w2, NDArrayConverter.toMat .LP64 (some 1) (worldWith u8Transposed) = .ok (m, w1) ∧
      (worldWith u8Transposed).heap.length = 2 ∧ w1.heap.length = 3 ∧ w1.copies = 1 ∧
      m.u = some 0 ∧ (w1.record (some 0)).map (fun x => x.userdata) = some (some 2) ∧
      w1.refcnt 2 = 2 ∧
      NumpyAllocator.deallocate m.u w1 = .ok w2 ∧
      w2.refcnt 2 = 1 ∧ w2.records = [none] ∧
      (worldWith u8Transposed).refcnt 1 = 1 ∧ w2.refcnt 1 = 1 :=
  ⟨_, _, _, by rfl, by rfl, by rfl, by rfl, by rfl, by rfl, by rfl, by rfl, by rfl, by rfl,
    by rfl, by rfl⟩

/-! ## Instances of the general statements -/

/-- C1 (witness): the round trip of the C-contiguous `2 x 3 x 3` image. -/
theorem zero_copy_round_trip_witness :
    ZeroCopyInput .LP64 (worldWith u8Image) 1 u8Image ∧
      ∃ w3, roundTrip .LP64 (some 1) (worldWith u8Image) = .ok (some 1, w3) ∧
        w3.arr (some 1) = some u8Image ∧
        w3.heap.length = (worldWith u8Image).heap.length ∧
        w3.refcnt 1 = (worldWith u8Image).refcnt 1 + 1 :=
  have h : ZeroCopyInput .LP64 (worldWith u8Image) 1 u8Image :=
    ⟨by decide, by decide, by decide, by decide, by decide, by decide, by decide⟩
  ⟨h, by
    obtain ⟨w3, h1, h2, h3, h4, _⟩ :=
      zero_copy_round_trip .LP64 (worldWith u8Image) 1 u8Image h
    exact ⟨w3, h1, h2, h3, h4⟩⟩

/-- C2 (witness): three binds and three releases of the `2 x 3` matrix. -/
theorem bind_release_neutral_witness :
    ZeroCopyInput .LP64 (worldWith u8Matrix) 1 u8Matrix ∧
      ∃ ms w1, bindN .LP64 1 3 (worldWith u8Matrix) = .ok (ms, w1) ∧ ms.length = 3 ∧
        w1.refcnt 1 = (worldWith u8Matrix).refcnt 1 + 3 ∧
        ∃ w2, releaseAll ms w1 = .ok w2 ∧ w2.refcnt 1 = (worldWith u8Matrix).refcnt 1 :=
  have h : ZeroCopyInput .LP64 (worldWith u8Matrix) 1 u8Matrix :=
    ⟨by decide, by decide, by decide, by decide, by decide, by decide, by decide⟩
  ⟨h, by
    obtain ⟨ms, w1, h1, h2, h3, _, _, w2, h6, h7, _⟩ :=
      bind_release_neutral .LP64 (worldWith u8Matrix) 1 u8Matrix h 3
    exact ⟨ms, w1, h1, h2, h3, w2, h6, h7⟩⟩

/-- C5 (witness): the padded `2 x 3 x 3` image, with room for the copy. -/
theorem channel_folding_rank3_witness :
    ∃ o1 a1 d w1, toMatArgs .LP64 1 u8Padded (worldWith u8Padded) = .ok (o1, d, w1) ∧
      w1.arr (some o1) = some a1 ∧ d.data = a1.data ∧
      d.ndims = 2 ∧ d.size.take 2 = [2, 3] ∧ CV_MAT_CN d.type = 3 ∧
      CV_MAT_DEPTH d.type = CV_8U ∧
      ∃ es, npyElsize .LP64 a1.typenum = some es ∧ a1.strides = cStrides es [2, 3, 3] := by
  obtain ⟨o1, a1, d, w1, h1, h2, h3, _, h5, _, _, h8⟩ :=
    channel_folding_rank3 .LP64 (worldWith u8Padded) 1 u8Padded
      (by decide) (by decide) (by decide) (by decide) (by decide) (Or.inr (by decide))
  obtain ⟨f1, f2, _, f4⟩ := h5 (by decide)
  obtain ⟨f5, f6⟩ := f4 (by decide)
  obtain ⟨_, es, g1, g2⟩ := h8 (by decide) (by decide)
  exact ⟨o1, a1, d, w1, h1, h2, h3, f1, f2, f5, f6, es, g1, g2⟩

/-- C9 (witness): the request for a `2 x 3` matrix of three-channel bytes. -/
theorem materialize_request_spec_witness :
    CV_MAT_DEPTH 16 ∈ sevenDepths ∧
      (materializeRequest .LP64 [2, 3].length [2, 3] 16).2.1 =
        (if CV_MAT_CN 16 > 1 then [2, 3] ++ [CV_MAT_CN 16] else [2, 3]) ∧
      (materializeRequest .LP64 [2, 3].length [2, 3] 16).2.2 = NPY_UBYTE :=
  ⟨by decide, (materialize_request_spec .LP64 [2, 3] 16 (by decide)).1,
    (materialize_request_spec .LP64 [2, 3] 16 (by decide)).2.2.1⟩

end NumpyOpencv
